import Mathlib

/-!
# Verification of the GlobWetlandAfrica installer (`installer.py`)

Shallow embedding of the installation wizard in `src/installer.py`:

* a filesystem model (`FS`) together with the `Utilities` helpers
  (`checkWritePermissions`, `execSubprocess`, `unzipArchive`, `copyFiles`,
  `activateProcessingProviders`), and
* a step-sequencer model of `Installer.runInstaller` as a function from the
  operator's dialog outcomes to a run result and a trace of performed effects.

Machine-level conventions: Windows paths are joined with a single backslash
(`os.path.join`); Python exceptions are modelled by the `PyError` type; a
`try/except` block is modelled by matching on an `Except PyError` value.
-/

/-! ## Paths -/

/-- `os.path.join` on Windows: join the components with a backslash. -/
def pjoin (parts : List String) : String :=
  String.intercalate "\\" parts

/-- `(a ++ b).data = a.data ++ b.data` for strings. -/
theorem str_data_append (a b : String) : (a ++ b).data = a.data ++ b.data := by
  cases a
  cases b
  rfl

/-- Rebuilding a string from its character data gives the string back. -/
theorem str_mk_data (s : String) : String.mk s.data = s := by
  cases s
  rfl

/-- Joining two path components. -/
theorem pjoin_pair (a b : String) : pjoin [a, b] = a ++ "\\" ++ b := rfl

/-- A path prefix cancels on the left: `d ++ x = d ++ y → x = y`. -/
theorem str_append_cancel {d x y : String} (h : d ++ x = d ++ y) : x = y := by
  have hd : (d ++ x).data = (d ++ y).data := by rw [h]
  rw [str_data_append, str_data_append] at hd
  have := List.append_cancel_left hd
  calc x = String.mk x.data := (str_mk_data x).symm
    _ = String.mk y.data := by rw [this]
    _ = y := str_mk_data y

/-- `pjoin [d, a] = pjoin [d, b] → a = b`. -/
theorem pjoin_pair_cancel {d a b : String} (h : pjoin [d, a] = pjoin [d, b]) :
    a = b := by
  rw [pjoin_pair, pjoin_pair] at h
  exact str_append_cancel h

/-- Strip an expected character-list front from a character list. -/
def dropFrontChars : List Char → List Char → Option (List Char)
  | [], s => some s
  | _ :: _, [] => none
  | p :: ps, c :: cs => if p = c then dropFrontChars ps cs else none

theorem dropFrontChars_append (p s : List Char) :
    dropFrontChars p (p ++ s) = some s := by
  induction p with
  | nil => rfl
  | cons c cs ih => simp [dropFrontChars, ih]

/-- The path of `p` relative to directory `dst`, when `p` lies under `dst`. -/
def relUnder (dst p : String) : Option String :=
  match dropFrontChars (dst.data ++ ['\\']) p.data with
  | some rest => some (String.mk rest)
  | none => none

theorem relUnder_pjoin (d r : String) : relUnder d (pjoin [d, r]) = some r := by
  have hdata : (pjoin [d, r]).data = (d.data ++ ['\\']) ++ r.data := by
    rw [pjoin_pair, str_data_append, str_data_append]
  unfold relUnder
  rw [hdata]
  rw [dropFrontChars_append]

/-- `os.path.dirname` for a backslash-separated path: everything before the
last backslash, or `""` when there is none. -/
def dirname (p : String) : String :=
  match p.data.reverse.dropWhile (fun c => c ≠ '\\') with
  | [] => ""
  | _ :: rest => String.mk rest.reverse

/-- `os.path.basename` for a backslash-separated path: everything after the
last backslash. -/
def basename (p : String) : String :=
  String.mk (p.data.reverse.takeWhile (fun c => c ≠ '\\')).reverse

/-! ## Python-level error values -/

/-- The Python exceptions the installer can raise or handle. -/
inductive PyError
  | indexError
  | valueError
  | typeError
  | nameError (var : String)
deriving DecidableEq, Repr

/-! ## Filesystem model

A filesystem is a partial map from file paths to contents, a set of
directories, plus oracles saying which I/O operations succeed (standing for
the OS-dependent outcomes — permissions, locks — that Python surfaces as
`IOError`/`OSError`).  Zip archives are files whose entry list is exposed by
`archiveEntries` (relative entry name and content). -/

structure FS where
  file : String → Option String
  isDir : String → Bool
  canCreateDir : String → Bool
  canWrite : String → Bool
  canRemove : String → Bool
  archiveEntries : String → List (String × String)

/-- `os.path.isfile`. -/
def FS.isFile (fs : FS) (p : String) : Bool :=
  (fs.file p).isSome

/-- `os.makedirs` (ancestor creation elided: the claims only concern `d`). -/
def FS.mkdirs (fs : FS) (d : String) : FS :=
  { fs with isDir := fun q => q == d || fs.isDir q }

/-- `open(p, 'w')` followed by close: creates (or truncates) the file at `p`. -/
def FS.createFile (fs : FS) (p : String) : FS :=
  { fs with file := fun q => if q == p then some "" else fs.file q }

/-- `os.remove p`. -/
def FS.removeFile (fs : FS) (p : String) : FS :=
  { fs with file := fun q => if q == p then none else fs.file q }

/-! ## `Utilities.checkWritePermissions` (installer.py lines 469-489) -/

/-- `Utilities.checkWritePermissions(dstPath)`: inside a `try` guarded by
`except IOError`, create `dstPath` if it is not a directory, then open a probe
file `dstPath\_test` for writing; on either failure return `False`.
Otherwise try to `os.remove` the probe under a bare `except: pass`, and
return `True`. -/
def checkWritePermissions (fs : FS) (dstPath : String) : Bool × FS :=
  let testfile := pjoin [dstPath, "_test"]
  if !fs.isDir dstPath && !fs.canCreateDir dstPath then
    (false, fs)
  else
    let fs1 := if fs.isDir dstPath then fs else fs.mkdirs dstPath
    if !fs1.canWrite testfile then
      (false, fs1)
    else
      let fs2 := fs1.createFile testfile
      if fs2.canRemove testfile then (true, fs2.removeFile testfile)
      else (true, fs2)

/-- The spec's wording, for comparison: the probe create-then-remove succeeds
(the directory is available, the probe file can be created, and the probe file
can be removed). -/
def createThenRemoveSucceeds (fs : FS) (dstPath : String) : Bool :=
  (fs.isDir dstPath || fs.canCreateDir dstPath)
    && fs.canWrite (pjoin [dstPath, "_test"])
    && fs.canRemove (pjoin [dstPath, "_test"])

/-! ## `Utilities.execSubprocess` (installer.py lines 323-347) -/

/-- A command is either a plain string or an argument list (Python passes both
shapes to `subprocess.Popen`). -/
inductive Cmd
  | str (s : String)
  | args (l : List String)
deriving DecidableEq, Repr

/-- Result of `execSubprocess`: the missing-file popup (no process started),
a launched process (output drained to end-of-stream, return code never
inspected), or an uncaught Python exception. -/
inductive ExecResult
  | missingPopup
  | launched
  | err (e : PyError)
deriving DecidableEq, Repr

/-- `Utilities.execSubprocess(command)`: take `command[0]` if `command` is a
list (raising `IndexError` when the list is empty), else the whole string;
if that path is not an existing file, show the "Could not find the
installation file" popup and return without launching; otherwise launch the
process, drain its combined output, and never inspect the return code. -/
def execSubprocess (fs : FS) (command : Cmd) : ExecResult :=
  let c : Except PyError String :=
    match command with
    | .args l =>
      match l with
      | [] => .error .indexError
      | c0 :: _ => .ok c0
    | .str s => .ok s
  match c with
  | .error e => .err e
  | .ok c0 => if fs.isFile c0 then .launched else .missingPopup

/-- The spec's wording, for comparison: the first whitespace-separated token
of the command. -/
def firstToken : Cmd → Option String
  | .args l => l.head?
  | .str s =>
    if s.data.isEmpty then none
    else some (String.mk (s.data.takeWhile (fun c => c ≠ ' ')))

/-! ## `Utilities.unzipArchive` (installer.py lines 449-467) -/

inductive UnzipOutcome
  | archiveNotFound
  | permissionDenied
  | extracted
deriving DecidableEq, Repr

/-- `ZipFile(archivePath).extractall(dstPath)`: every archive entry appears as
a file under `dstPath` with its content; other files are untouched. -/
def extractAll (fs : FS) (archivePath dstPath : String) : FS :=
  { fs with
    file := fun p =>
      match (fs.archiveEntries archivePath).find?
          (fun en => pjoin [dstPath, en.1] == p) with
      | some en => some en.2
      | none => fs.file p }

/-- `Utilities.unzipArchive(archivePath, dstPath)`: if the archive is not an
existing file, `error_exit` ("Could not find the archive!") and return with
the filesystem untouched; then `checkWritePermissions(dstPath)` (which creates
the directory if needed), `error_exit` on failure; otherwise extract all
entries. -/
def unzipArchive (fs : FS) (archivePath dstPath : String) : UnzipOutcome × FS :=
  if !fs.isFile archivePath then
    (.archiveNotFound, fs)
  else
    let r := checkWritePermissions fs dstPath
    if r.1 then (.extracted, extractAll r.2 archivePath dstPath)
    else (.permissionDenied, r.2)

/-! ## `Utilities.copyFiles` (installer.py lines 412-447) -/

inductive CopyOutcome
  | destParentMissing
  | permissionDenied
  | copiedTree
  | copiedFile
  | srcMissing
deriving DecidableEq, Repr

/-- `distutils.dir_util.copy_tree(src, dst)`: every file at relative path `r`
under `src` is copied to the same relative path under `dst`, overwriting what
was there; files under `dst` at relative paths absent from `src` are kept
(a merge, not a wipe). -/
def copyTree (fs : FS) (src dst : String) : FS :=
  { fs with
    file := fun p =>
      match relUnder dst p with
      | some r =>
        match fs.file (pjoin [src, r]) with
        | some c => some c
        | none => fs.file p
      | none => fs.file p }

/-- `shutil.copy(srcPath, dstPath)` with `dstPath` a directory: copy the file
to `dstPath\basename(srcPath)`. -/
def shutilCopy (fs : FS) (srcPath dstPath : String) : FS :=
  { fs with
    file := fun p =>
      if p == pjoin [dstPath, basename srcPath] then fs.file srcPath
      else fs.file p }

/-- `Utilities.copyFiles(srcPath, dstPath, checkDstParentExists)`: optionally
check that the parent of `dstPath` is a directory (`error_exit` otherwise);
run `checkWritePermissions(dstPath)` (`error_exit` on failure); then
`copy_tree` for a source directory, `shutil.copy` for a source file, and a
"Cannot find the source directory!" popup when neither exists. -/
def copyFiles (fs : FS) (srcPath dstPath : String) (checkDstParentExists : Bool) :
    CopyOutcome × FS :=
  if checkDstParentExists && !fs.isDir (dirname dstPath) then
    (.destParentMissing, fs)
  else
    let r := checkWritePermissions fs dstPath
    if !r.1 then (.permissionDenied, r.2)
    else if r.2.isDir srcPath then (.copiedTree, copyTree r.2 srcPath dstPath)
    else if r.2.isFile srcPath then (.copiedFile, shutilCopy r.2 srcPath dstPath)
    else (.srcMissing, r.2)

/-! ## Helper lemmas about `checkWritePermissions` -/

/-- The boolean returned by `checkWritePermissions`: true exactly when the
directory exists or can be created, and the probe file can be created.
Whether the probe can be removed does not matter. -/
theorem cwp_fst (fs : FS) (d : String) :
    (checkWritePermissions fs d).1
      = ((fs.isDir d || fs.canCreateDir d) && fs.canWrite (pjoin [d, "_test"])) := by
  by_cases hd : fs.isDir d = true <;>
  by_cases hc : fs.canCreateDir d = true <;>
  by_cases hw : fs.canWrite (pjoin [d, "_test"]) = true <;>
  by_cases hr : fs.canRemove (pjoin [d, "_test"]) = true <;>
    simp [checkWritePermissions, FS.mkdirs, FS.createFile, FS.removeFile, hd, hc, hw, hr]

/-- Pointwise effect of `checkWritePermissions` on files: only the probe file
`d\_test` can change; it is deleted when removable, else left behind with
empty content; on a failed check no file changes. -/
theorem cwp_file (fs : FS) (d p : String) :
    ((checkWritePermissions fs d).2).file p
      = if ((checkWritePermissions fs d).1 && (p == pjoin [d, "_test"])) then
          (if fs.canRemove (pjoin [d, "_test"]) then none else some "")
        else fs.file p := by
  by_cases hd : fs.isDir d = true <;>
  by_cases hc : fs.canCreateDir d = true <;>
  by_cases hw : fs.canWrite (pjoin [d, "_test"]) = true <;>
  by_cases hr : fs.canRemove (pjoin [d, "_test"]) = true <;>
  by_cases hp : p = pjoin [d, "_test"] <;>
    simp [checkWritePermissions, FS.mkdirs, FS.createFile, FS.removeFile, hd, hc, hw, hr, hp]

/-- When the destination is already a directory, `checkWritePermissions` does
not change the directory structure. -/
theorem cwp_isDir_of_dir (fs : FS) (d : String) (hd : fs.isDir d = true) :
    ((checkWritePermissions fs d).2).isDir = fs.isDir := by
  by_cases hw : fs.canWrite (pjoin [d, "_test"]) = true <;>
  by_cases hr : fs.canRemove (pjoin [d, "_test"]) = true <;>
    simp [checkWritePermissions, FS.createFile, FS.removeFile, hd, hw, hr]

/-- `canRemove` is untouched by `checkWritePermissions` (it is an oracle). -/
theorem cwp_canRemove (fs : FS) (d : String) :
    ((checkWritePermissions fs d).2).canRemove = fs.canRemove := by
  by_cases hd : fs.isDir d = true <;>
  by_cases hc : fs.canCreateDir d = true <;>
  by_cases hw : fs.canWrite (pjoin [d, "_test"]) = true <;>
  by_cases hr : fs.canRemove (pjoin [d, "_test"]) = true <;>
    simp [checkWritePermissions, FS.mkdirs, FS.createFile, FS.removeFile, hd, hc, hw, hr]

/-! ## Claim C5 -/

/-- A filesystem refuting claim C5 as stated: `"d"` is a writable directory
whose probe file can be created but not removed. -/
def fsC5 : FS :=
  { file := fun _ => none
    isDir := fun q => q == "d"
    canCreateDir := fun _ => false
    canWrite := fun _ => true
    canRemove := fun _ => false
    archiveEntries := fun _ => [] }

/-- C5 (counterexample): `checkWritePermissions` returns `true` even though
the create-then-remove of the probe did NOT succeed (the removal failed), and
a residual probe file `d\_test` is left behind — refuting "returns true if and
only if that create-then-remove succeeds". -/
theorem C5_counterexample :
    (checkWritePermissions fsC5 "d").1 = true
    ∧ createThenRemoveSucceeds fsC5 "d" = false
    ∧ ((checkWritePermissions fsC5 "d").2).file (pjoin ["d", "_test"]) = some "" := by
  refine ⟨by decide, by decide, by decide⟩

/-- C5 (amended): `checkWritePermissions(destDir)` creates `destDir` if it is
absent and attempts a probe-file create-then-remove; it returns true iff the
directory exists-or-is-creatable AND the probe creation succeeds — a failure
of the probe removal is swallowed and true is still returned, possibly leaving
a residual probe file.  No file other than the probe is ever touched; when the
probe is also removable no residual probe file remains; on a false return no
file at all has changed. -/
theorem C5_probe_semantics (fs : FS) (d : String) :
    (checkWritePermissions fs d).1
      = ((fs.isDir d || fs.canCreateDir d) && fs.canWrite (pjoin [d, "_test"]))
    ∧ (∀ p, p ≠ pjoin [d, "_test"] →
        ((checkWritePermissions fs d).2).file p = fs.file p)
    ∧ ((checkWritePermissions fs d).1 = true →
        fs.canRemove (pjoin [d, "_test"]) = true →
        ((checkWritePermissions fs d).2).file (pjoin [d, "_test"]) = none)
    ∧ ((checkWritePermissions fs d).1 = false →
        ((checkWritePermissions fs d).2).file (pjoin [d, "_test"])
          = fs.file (pjoin [d, "_test"])) := by
  refine ⟨cwp_fst fs d, ?_, ?_, ?_⟩
  · intro p hp
    rw [cwp_file]
    simp [hp]
  · intro h1 h2
    rw [cwp_file]
    simp [h1, h2]
  · intro h1
    rw [cwp_file]
    simp [h1]

/-- A writable-and-removable destination for the C5 witness. -/
def fsC5w : FS :=
  { file := fun _ => none
    isDir := fun q => q == "d"
    canCreateDir := fun _ => false
    canWrite := fun _ => true
    canRemove := fun _ => true
    archiveEntries := fun _ => [] }

/-- Witness for C5: on a writable path the check returns true and leaves no
residual probe file. -/
theorem C5_probe_semantics_witness :
    (checkWritePermissions fsC5w "d").1 = true
    ∧ ((checkWritePermissions fsC5w "d").2).file (pjoin ["d", "_test"]) = none :=
  ⟨by decide,
   (C5_probe_semantics fsC5w "d").2.2.1 (by decide) (by decide)⟩

/-! ## Claim C6 -/

/-- A filesystem for the C6 counterexample: the file `"a"` exists, the file
`"a b"` does not. -/
def fsC6 : FS :=
  { file := fun p => if p == "a" then some "" else none
    isDir := fun _ => false
    canCreateDir := fun _ => false
    canWrite := fun _ => false
    canRemove := fun _ => false
    archiveEntries := fun _ => [] }

/-- C6 (counterexample): for the string command `"a b"` the first token `"a"`
resolves to an existing file, yet `execSubprocess` reports the missing-file
popup and does not launch — because the code tests `os.path.isfile` on the
whole string, not on its first token. -/
theorem C6_counterexample :
    firstToken (Cmd.str "a b") = some "a"
    ∧ fsC6.isFile "a" = true
    ∧ execSubprocess fsC6 (Cmd.str "a b") = ExecResult.missingPopup := by
  refine ⟨by decide, by decide, by decide⟩

/-- C6 (amended): the existence check of `execSubprocess` applies to the first
ELEMENT for list commands and to the ENTIRE string for string commands (not to
the first whitespace token); when the checked path is missing it reports the
popup and launches nothing; when present it launches (draining output, never
inspecting the return code); an empty argument list raises `IndexError`. -/
theorem C6_check_target_semantics (fs : FS) :
    (∀ s, execSubprocess fs (Cmd.str s)
        = if fs.isFile s then ExecResult.launched else ExecResult.missingPopup)
    ∧ (∀ c0 cs, execSubprocess fs (Cmd.args (c0 :: cs))
        = if fs.isFile c0 then ExecResult.launched else ExecResult.missingPopup)
    ∧ execSubprocess fs (Cmd.args []) = ExecResult.err PyError.indexError :=
  ⟨fun _ => rfl, fun _ _ => rfl, rfl⟩

/-! ## Claim C7 -/

/-- C7: when the archive does not exist, `unzipArchive` reports
"archive not found" and the filesystem is returned UNCHANGED (the destination
directory is neither created nor modified); when the archive exists, the
write-permission check runs (creating the destination if absent) and, on
success, all entries are extracted. -/
theorem C7_missing_archive_no_writes (fs : FS) (a d : String) :
    (fs.isFile a = false →
      unzipArchive fs a d = (UnzipOutcome.archiveNotFound, fs))
    ∧ (fs.isFile a = true → (checkWritePermissions fs d).1 = true →
      unzipArchive fs a d
        = (UnzipOutcome.extracted, extractAll (checkWritePermissions fs d).2 a d))
    ∧ (fs.isFile a = true → (checkWritePermissions fs d).1 = false →
      unzipArchive fs a d
        = (UnzipOutcome.permissionDenied, (checkWritePermissions fs d).2)) := by
  refine ⟨?_, ?_, ?_⟩
  · intro h1
    simp [unzipArchive, h1]
  · intro h1 h2
    simp [unzipArchive, h1, h2]
  · intro h1 h2
    simp [unzipArchive, h1, h2]

/-- An empty filesystem for the C7 witness. -/
def fsC7 : FS :=
  { file := fun _ => none
    isDir := fun _ => false
    canCreateDir := fun _ => false
    canWrite := fun _ => false
    canRemove := fun _ => false
    archiveEntries := fun _ => [] }

/-- Witness for C7: a concrete missing archive, no filesystem writes. -/
theorem C7_missing_archive_no_writes_witness :
    fsC7.isFile "a.zip" = false
    ∧ unzipArchive fsC7 "a.zip" "dest" = (UnzipOutcome.archiveNotFound, fsC7) :=
  ⟨by decide, (C7_missing_archive_no_writes fsC7 "a.zip" "dest").1 (by decide)⟩

/-! ## Claim C8 -/

/-- A filesystem for the C8 counterexample: destination directory `c\d`
contains a file literally named `_test` that does not occur in the source
directory `s`. -/
def fsC8 : FS :=
  { file := fun p => if p == "c\\d\\_test" then some "keep" else none
    isDir := fun p => p == "c" || p == "c\\d" || p == "s"
    canCreateDir := fun _ => false
    canWrite := fun _ => true
    canRemove := fun _ => true
    archiveEntries := fun _ => [] }

/-- C8 (counterexample): merging the directory `s` into the existing
destination `c\d` DELETES the destination file `_test` even though its
relative path does not occur in the source — the fixed-name write-permission
probe truncates and removes it.  This refutes "every file of the destination
whose relative path does not occur in the source is left unchanged". -/
theorem C8_counterexample :
    (copyFiles fsC8 "s" "c\\d" true).1 = CopyOutcome.copiedTree
    ∧ fsC8.file "c\\d\\_test" = some "keep"
    ∧ fsC8.file (pjoin ["s", "_test"]) = none
    ∧ ((copyFiles fsC8 "s" "c\\d" true).2).file "c\\d\\_test" = none := by
  refine ⟨by decide, by decide, by decide, by decide⟩

/-- C8 (amended): for a source directory and an existing writable destination
directory, `copyFiles` merges: every destination file whose relative path also
occurs in the source is overwritten with the source content, and every
destination file whose relative path does not occur in the source is left
unchanged EXCEPT a file named `_test` directly under the destination, which
the write-permission probe truncates and removes. -/
theorem C8_merge_semantics (fs : FS) (src dst : String)
    (hsrc : fs.isDir src = true) (hdst : fs.isDir dst = true)
    (hpar : fs.isDir (dirname dst) = true)
    (hw : fs.canWrite (pjoin [dst, "_test"]) = true)
    (hr : fs.canRemove (pjoin [dst, "_test"]) = true) :
    (copyFiles fs src dst true).1 = CopyOutcome.copiedTree
    ∧ ∀ r : String,
        ((fs.file (pjoin [src, r])).isSome = true →
          pjoin [src, r] ≠ pjoin [dst, "_test"] →
          ((copyFiles fs src dst true).2).file (pjoin [dst, r])
            = fs.file (pjoin [src, r]))
        ∧ (r ≠ "_test" → fs.file (pjoin [src, r]) = none →
          ((copyFiles fs src dst true).2).file (pjoin [dst, r])
            = fs.file (pjoin [dst, r])) := by
  have hfst : (checkWritePermissions fs dst).1 = true := by
    rw [cwp_fst]
    simp [hdst, hw]
  have hsrc2 : ((checkWritePermissions fs dst).2).isDir src = true := by
    rw [cwp_isDir_of_dir fs dst hdst]
    exact hsrc
  have hcopy : copyFiles fs src dst true
      = (CopyOutcome.copiedTree,
         copyTree (checkWritePermissions fs dst).2 src dst) := by
    simp [copyFiles, hpar, hfst, hsrc2]
  refine ⟨by rw [hcopy], ?_⟩
  intro r
  constructor
  · intro hs hne
    rcases Option.isSome_iff_exists.mp hs with ⟨c, hc⟩
    have h2 : ((checkWritePermissions fs dst).2).file (pjoin [src, r]) = some c := by
      rw [cwp_file]
      simp [hne, hc]
    rw [hcopy, hc]
    simp only [copyTree, relUnder_pjoin]
    rw [h2]
  · intro hne hnone
    have h2 : ((checkWritePermissions fs dst).2).file (pjoin [src, r]) = none := by
      rw [cwp_file]
      by_cases heq : pjoin [src, r] = pjoin [dst, "_test"]
      · simp [heq, hfst, hr]
      · simp [heq, hnone]
    have h3 : pjoin [dst, r] ≠ pjoin [dst, "_test"] := by
      intro hcontra
      exact hne (pjoin_pair_cancel hcontra)
    have h4 : ((checkWritePermissions fs dst).2).file (pjoin [dst, r])
        = fs.file (pjoin [dst, r]) := by
      rw [cwp_file]
      simp [h3]
    rw [hcopy]
    simp only [copyTree, relUnder_pjoin]
    rw [h2, h4]

/-- A filesystem for the C8 witness: source `s` holds files `f` (content
`"new"`) and destination `c\d` holds `f` (content `"old"`) and `g`
(content `"mine"`). -/
def fsC8w : FS :=
  { file := fun p =>
      if p == "s\\f" then some "new"
      else if p == "c\\d\\f" then some "old"
      else if p == "c\\d\\g" then some "mine"
      else none
    isDir := fun p => p == "c" || p == "c\\d" || p == "s"
    canCreateDir := fun _ => false
    canWrite := fun _ => true
    canRemove := fun _ => true
    archiveEntries := fun _ => [] }

/-- Witness for C8: the conflicting file `f` is overwritten with the source
content and the non-conflicting file `g` is preserved. -/
theorem C8_merge_semantics_witness :
    ((copyFiles fsC8w "s" "c\\d" true).2).file (pjoin ["c\\d", "f"]) = some "new"
    ∧ ((copyFiles fsC8w "s" "c\\d" true).2).file (pjoin ["c\\d", "g"])
        = fsC8w.file (pjoin ["c\\d", "g"]) :=
  ⟨by
    have h := ((C8_merge_semantics fsC8w "s" "c\\d" (by decide) (by decide)
        (by decide) (by decide) (by decide)).2 "f").1 (by decide) (by decide)
    rw [h]
    decide,
   ((C8_merge_semantics fsC8w "s" "c\\d" (by decide) (by decide)
        (by decide) (by decide) (by decide)).2 "g").2 (by decide) (by decide)⟩

/-! ## Python string helpers used by `activateProcessingProviders` -/

/-- Lexicographic (code-point) ascending order on strings, as used by Python's
`sorted`. -/
def strLe (a b : String) : Bool :=
  match compare a b with
  | .gt => false
  | _ => true

/-- Insert into an ascending list. -/
def insertSorted (x : String) : List String → List String
  | [] => [x]
  | y :: ys => if strLe x y then x :: y :: ys else y :: insertSorted x ys

/-- Python's `sorted` on a list of strings (ascending lexicographic). -/
def pysorted : List String → List String
  | [] => []
  | x :: xs => insertSorted x (pysorted xs)

/-- Substring test on character lists. -/
def hasSub : List Char → List Char → Bool
  | [], pat => pat.isEmpty
  | l@(_ :: tl), pat => (dropFrontChars pat l).isSome || hasSub tl pat

/-- Python's `pat in s` substring test. -/
def containsStr (s pat : String) : Bool :=
  hasSub s.data pat.data

/-- Fuel-indexed replacement of every occurrence of `pat` by `rep`. -/
def replaceCharsAux : Nat → List Char → List Char → List Char → List Char
  | 0, l, _, _ => l
  | n + 1, l, pat, rep =>
    match l with
    | [] => []
    | c :: tl =>
      match dropFrontChars pat l with
      | some rest =>
        if pat.isEmpty then l else rep ++ replaceCharsAux n rest pat rep
      | none => c :: replaceCharsAux n tl pat rep

/-- Python's `s.replace(pat, rep)` for a non-empty pattern. -/
def pyReplace (s pat rep : String) : String :=
  String.mk (replaceCharsAux (s.data.length + 1) s.data pat.data rep.data)

/-! ## The step sequencer (`Installer.runInstaller`, installer.py lines 48-283)

The presentation layer (`installerGUI`, not part of the sources) returns one
of the outcomes `NEXT` (the spec's PROCEED), `SKIP` or `CANCEL` from each
choice dialog; any other value is `unknown`.  The sequencer is modelled as a
function of an environment `Env` carrying the operator's outcome for each
choice dialog (numbered 0..7 in program order), the text typed into the
directory dialogs, and the filesystem facts the run consults.  Every effect
the run performs (dialogs shown, subprocesses started, archives extracted,
settings written, popups raised) is recorded in a trace, each entry tagged
with the index of the last choice dialog shown.  The progress-bar wait
windows (`extractingWaitWindow`, `copyingWaitWindow`, `cmdWaitWindow`) run
their action and close by themselves; they do not produce an operator
outcome and so do not consume a dialog index. -/

/-- Outcome of one choice dialog. -/
inductive Outcome
  | next
  | skip
  | cancel
  | unknown
deriving DecidableEq, Repr

/-- One observable effect of the run. -/
inductive Event
  | dialogShown (name : String)
  | popupUnknownAction
  | errorPopup (msg : String)
  | execInstaller (c : Cmd)
  | extractZip (archive dst : String)
  | copyDir (src dst : String)
  | delDir (p : String)
  | shellCmd (cmd : String)
  | setSetting (key value : String)
  | writeFile (p : String)
  | toolCall (name : String)
deriving DecidableEq, Repr

/-- How a run ends: normal completion, the user-initiated CANCEL return, or
an uncaught Python exception (re-raised by `__main__`). -/
inductive RunEnd
  | completed
  | cancelled
  | crashed (e : PyError)
deriving DecidableEq, Repr

/-- The variables assigned in the welcome-window `NEXT` branch
(installer.py lines 56-69): the `install_dirs` mapping and the four
installer commands. -/
structure InstallVars where
  osgeo : String
  snap : String
  r : String
  osgeo4wInstall : String
  otbInstall : String
  snapInstallCmd : List String
  rInstall : String
deriving DecidableEq, Repr

/-- `Installations_x64` (the 64-bit install payload directory). -/
def installationsDir : String := "Installations_x64"

/-- `os.path.abspath("QGIS additional software")` (abspath modelled as the
identity on the relative name). -/
def qgisExtrasDir : String := "QGIS additional software"

/-- `self.qgis_profile_path` (installer.py lines 44-45), from the user's
home directory. -/
def qgisProfilePath (home : String) : String :=
  pjoin [home, "AppData", "Roaming", "QGIS", "QGIS3", "profiles", "default"]

/-- The values assigned at the welcome window (installer.py lines 56-69). -/
def initialVars : InstallVars :=
  { osgeo := "C:\\OSGeo4W64"
    snap := "C:\\Program Files\\SNAP"
    r := "C:\\Program Files\\R\\R-3.3.3"
    osgeo4wInstall := pjoin [installationsDir, "osgeo4w-setup.bat"]
    otbInstall := pjoin [installationsDir, "OTB-7.3.0-Win64.zip"]
    snapInstallCmd := [pjoin [installationsDir, "esa-snap_sentinel_windows-x64_8_0.exe"],
      "-q", "-varfile", "SNAP_response_install4j.varfile",
      "-splash", "\"SNAP installation\""]
    rInstall := pjoin [installationsDir, "R-3.3.3-win.exe"] }

/-- The `plugins_to_delete` list (installer.py lines 122-130).  The Python
source is missing a comma after `'pointsamplingtool'`, so the adjacent string
literals concatenate into the single element
`'pointsamplingtoolprocessing_gpf'`: the list has 7 entries, not 8. -/
def plugins_to_delete : List String :=
  ["LecoS",
   "openlayers_plugin",
   "pointsamplingtoolprocessing_gpf",
   "processing_workflow",
   "processing-r",
   "temporalprofiletool",
   "ThRasE"]

/-- `Utilities.activateThis(*names)`: set each named setting to `'true'`. -/
def activateThisEvents (names : List String) : List Event :=
  names.map (fun n => Event.setSetting n "true")

/-- `Utilities.activatePlugins` (installer.py lines 500-507). -/
def activatePluginsEvents : List Event :=
  activateThisEvents
    ["PythonPlugins/LecoS",
     "PythonPlugins/quick_map_services",
     "PythonPlugins/pointsamplingtool",
     "PythonPlugins/processing_gpf",
     "PythonPlugins/processing_workflow",
     "plugins/ThRasE"]

/-- The shell command built by `Utilities.cmd_install_pip_offline`
(installer.py lines 376-387). -/
def pipCmdString (osgeoRoot pipDir reqFile : String) : String :=
  "call " ++ pjoin [osgeoRoot, "bin", "o4w_env.bat"]
    ++ " & call " ++ pjoin [osgeoRoot, "bin", "py3_env.bat"]
    ++ " &if defined OSGEO4W_ROOT (python3 -m pip install --no-index --find-links \""
    ++ pipDir ++ "\" -r \"" ++ reqFile ++ "\")"

/-- The `except (ValueError): pass` handler at installer.py line 545: it
swallows a `ValueError` and lets every other exception propagate. -/
def catchValueError : Except PyError Unit → Except PyError Unit
  | .error .valueError => .ok ()
  | r => r

/-- The fixed settings written by `activateProcessingProviders` before the
`try` block (installer.py lines 510-525). -/
def appFixedEvents : List Event :=
  [Event.setSetting "Processing/configuration/ACTIVATE_GRASS70" "true"]
  ++ activateThisEvents
    ["Processing/configuration/ACTIVATE_MODEL",
     "Processing/configuration/ACTIVATE_QGIS",
     "Processing/configuration/ACTIVATE_SAGA",
     "Processing/configuration/ACTIVATE_SCRIPT",
     "Processing/configuration/ACTIVATE_WORKFLOW",
     "Processing/configuration/ACTIVATE_GWA_TBX",
     "Processing/Configuration/OTB_ACTIVATE",
     "Processing/configuration/GRASS_LOG_COMMANDS",
     "Processing/configuration/GRASS_LOG_CONSOLE",
     "Processing/configuration/SAGA_LOG_COMMANDS",
     "Processing/configuration/SAGA_LOG_CONSOLE",
     "Processing/configuration/USE_FILENAME_AS_LAYER_NAME",
     "Processing/configuration/TASKBAR_BUTTON_GWA_TBX"]
  ++ [Event.setSetting "Processing/configuration/TASKBAR_BUTTON_WORKFLOW" "false"]

/-- The `try` block of `activateProcessingProviders` (installer.py lines
527-544), as a function of the (already sorted) GRASS candidate directories
and the raw OTB glob result: `grass_folders[-1]` raises `IndexError` on an
empty list; `glob(...)[0]` raises `IndexError` on an empty OTB glob.  Returns
the events performed before any exception, and the block's outcome. -/
def appTryBody (grass_folders : List String) (otbGlob : List String) :
    List Event × Except PyError Unit :=
  match grass_folders.getLast? with
  | none => ([], .error .indexError)
  | some grassFolder =>
    let evsA :=
      if containsStr grassFolder "grass-" then []
      else
        [Event.shellCmd ("Xcopy /E /I " ++ grassFolder ++ " "
          ++ pyReplace grassFolder "grass7" "grass-7.")]
    match otbGlob.head? with
    | none => (evsA, .error .indexError)
    | some otb_folder =>
      (evsA
        ++ [Event.setSetting "Processing/Configuration/OTB_FOLDER" otb_folder,
            Event.setSetting "Processing/Configuration/OTB_APP_FOLDER"
              (pjoin [otb_folder, "lib", "otb", "applications"])],
       .ok ())

/-- `Utilities.activateProcessingProviders(osgeodir)` (installer.py lines
509-546): write the fixed activation settings; then, inside
`try ... except (ValueError): pass`, pick the GRASS folder as the LAST of the
sorted `glob('grass*')` directories, `Xcopy` it to a `grass-7.`-style name
when needed, and pick the OTB folder as the FIRST `glob('OTB-*')` entry
before writing the two OTB settings.  Returns the events performed and the
Python outcome of the `try` statement (the handler only catches
`ValueError`). -/
def activateProcessingProviders (glob : String → List String)
    (isDir : String → Bool) (osgeodir : String) :
    List Event × Except PyError Unit :=
  let grassRoot := pjoin [osgeodir, "apps", "grass"]
  let grass_folders :=
    pysorted ((glob (pjoin [grassRoot, "grass*"])).filter isDir)
  let body := appTryBody grass_folders (glob (pjoin [osgeodir, "apps", "OTB-*"]))
  (appFixedEvents ++ body.1, catchValueError body.2)

/-- The environment a run consults: the operator's outcome for each choice
dialog, the directory text typed into each directory dialog, the user's home
directory, and the filesystem facts read along the way.  `writeOk` says
whether opening a given file for writing/appending succeeds; `ramOk` whether
`installer_utils.modifyRamInBatFiles` succeeds (that module is not part of
the sources; its calls are recorded opaquely). -/
structure Env where
  outcomes : Nat → Outcome
  dirText : Nat → String
  home : String
  isFile : String → Bool
  isDir : String → Bool
  glob : String → List String
  writeOk : String → Bool
  ramOk : Bool

/-- The sequencer state: the trace so far (each event tagged with the index
of the current choice dialog), whether the welcome-window variables are
assigned, and whether `site_packages_dir` is assigned. -/
structure St where
  trace : List (Nat × Event)
  vars : Option InstallVars
  sitePkgs : Option String
/-- Tag a list of events with the dialog index they happen under. -/
def tagged (k : Nat) (es : List Event) : List (Nat × Event) :=
  es.map (fun e => (k, e))

/-- Append events tagged with dialog index `k` to the trace. -/
def St.push (s : St) (k : Nat) (es : List Event) : St :=
  { s with trace := s.trace ++ tagged k es }

/-- Record that the welcome-window variables are (re)assigned. -/
def St.setVars (s : St) (v : InstallVars) : St :=
  { s with vars := some v }

/-- Record that `site_packages_dir` is (re)assigned. -/
def St.setSitePkgs (s : St) (sp : String) : St :=
  { s with sitePkgs := some sp }

/-- Continuation of a run: either ended (by `return`, crash, or completion)
or continuing with a new state. -/
inductive SeqStep
  | done (e : RunEnd) (s : St)
  | cont (s : St)

/-- Dialog 0: the welcome window with license (installer.py lines 50-75).
`NEXT` assigns the install directories and installer commands; `CANCEL`
returns; anything else shows `unknownActionPopup` and FALLS THROUGH. -/
def stage0 (env : Env) (s : St) : SeqStep :=
  match env.outcomes 0 with
  | .next =>
    .cont ((s.push 0 [.dialogShown "installerWelcomeWindow"]).setVars initialVars)
  | .cancel =>
    .done .cancelled (s.push 0 [.dialogShown "installerWelcomeWindow"])
  | _ =>
    .cont (s.push 0 [.dialogShown "installerWelcomeWindow", .popupUnknownAction])

/-- Dialog 1: the uninstall-instructions window (installer.py lines 79-83).
Only `CANCEL` is checked; every other outcome falls through silently. -/
def stage1 (env : Env) (s : St) : SeqStep :=
  match env.outcomes 1 with
  | .cancel =>
    .done .cancelled (s.push 1 [.dialogShown "uninstallInstructionsWindow"])
  | _ =>
    .cont (s.push 1 [.dialogShown "uninstallInstructionsWindow"])

/-- Dialog 2: the OSGeo4W install window (installer.py lines 91-107).
`NEXT` runs the OSGeo4W installer and extracts the OTB archive (reading the
welcome-window variables: a `NameError` if they were never assigned). -/
def stage2 (env : Env) (s : St) : SeqStep :=
  match env.outcomes 2 with
  | .next =>
    match s.vars with
    | none =>
      .done (.crashed (.nameError "osgeo4wInstall"))
        (s.push 2 [.dialogShown "GenericInstallWindow OSGeo4W"])
    | some v =>
      .cont (s.push 2
        [.dialogShown "GenericInstallWindow OSGeo4W",
         .execInstaller (.str v.osgeo4wInstall),
         .extractZip v.otbInstall (pjoin [v.osgeo, "apps"])])
  | .skip =>
    .cont (s.push 2 [.dialogShown "GenericInstallWindow OSGeo4W"])
  | .cancel =>
    .done .cancelled (s.push 2 [.dialogShown "GenericInstallWindow OSGeo4W"])
  | .unknown =>
    .cont (s.push 2 [.dialogShown "GenericInstallWindow OSGeo4W", .popupUnknownAction])

/-- The events of the `res == NEXT` branch of the OSGeo4W post-install dialog
(installer.py lines 114-165), together with the Python outcome of the branch:
delete the old plugins, extract `plugins.zip`, extract the processing and
python packages, build and run the offline-pip command (`error_exit` popup if
`requirements.txt` is missing; `raise self.error_exit(...)` — a `TypeError`,
since `error_exit` returns `None` — if `o4w_env.bat` is missing), then
activate plugins and processing providers. -/
def stage3EventsNext (env : Env) (osgeoDir : String) :
    List Event × Except PyError Unit :=
  let dstPath := pjoin [qgisProfilePath env.home, "python", "plugins"]
  let srcPath := pjoin [qgisExtrasDir, "plugins", "plugins.zip"]
  let delEvs := plugins_to_delete.map (fun plug => Event.delDir (pjoin [dstPath, plug]))
  let processingDir := pjoin [qgisProfilePath env.home, "processing"]
  let procEvs := (env.glob (pjoin [qgisExtrasDir, "*.zip"])).map
    (fun z => Event.extractZip z processingDir)
  let sitePackagesDir := pjoin [osgeoDir, "apps", "Python37", "Lib", "site-packages"]
  let pyEvs := (env.glob (pjoin [qgisExtrasDir, "python_packages", "*.zip"])).map
    (fun z => Event.extractZip z sitePackagesDir)
  let pipDir := pjoin [qgisExtrasDir, "python_packages_pip"]
  let reqFile := pjoin [pipDir, "requirements.txt"]
  let reqEvs :=
    if env.isFile reqFile then []
    else [Event.errorPopup "No requirements file found"]
  let envbat := pjoin [osgeoDir, "bin", "o4w_env.bat"]
  if env.isFile envbat then
    let app := activateProcessingProviders env.glob env.isDir osgeoDir
    (delEvs ++ [Event.extractZip srcPath dstPath] ++ procEvs ++ pyEvs ++ reqEvs
      ++ [Event.shellCmd (pipCmdString osgeoDir pipDir reqFile)]
      ++ activatePluginsEvents ++ app.1,
     app.2)
  else
    (delEvs ++ [Event.extractZip srcPath dstPath] ++ procEvs ++ pyEvs ++ reqEvs
      ++ [Event.errorPopup "No OSGeo env bat file found"],
     .error .typeError)

/-- Dialog 3: the OSGeo4W post-install directory dialog (installer.py lines
110-172).  Constructing the dialog already reads `install_dirs` (a
`NameError`, before the dialog is shown, if the welcome variables were never
assigned).  It is presented even if the installation step was skipped.
`NEXT` updates `install_dirs['OSGeo4W']` from the typed text, performs the
post-install actions, and assigns `site_packages_dir`. -/
def stage3 (env : Env) (s : St) : SeqStep :=
  match s.vars with
  | none => .done (.crashed (.nameError "install_dirs")) s
  | some v =>
    match env.outcomes 3 with
    | .next =>
      let osgeoDir := env.dirText 3
      let body := stage3EventsNext env osgeoDir
      let s2 : St :=
        (((s.push 3 (Event.dialogShown "DirPathPostInstallWindow OSGeo4W" :: body.1)).setVars
            { v with osgeo := osgeoDir }).setSitePkgs
          (pjoin [osgeoDir, "apps", "Python37", "Lib", "site-packages"]))
      match body.2 with
      | .ok _ => .cont s2
      | .error e => .done (.crashed e) s2
    | .skip =>
      .cont (s.push 3 [.dialogShown "DirPathPostInstallWindow OSGeo4W"])
    | .cancel =>
      .done .cancelled (s.push 3 [.dialogShown "DirPathPostInstallWindow OSGeo4W"])
    | .unknown =>
      .cont (s.push 3 [.dialogShown "DirPathPostInstallWindow OSGeo4W", .popupUnknownAction])

/-- The events of the SNAP `NEXT` branch after `site_packages_dir` has been
read successfully (installer.py lines 184-235): fix `jpyconfig.py`, reassign
`site_packages_dir` (now with lowercase `lib`), run `snap64 --python`, write
`snappy.ini` (warning only on `IOError`), patch `gpt.vmoptions`
(`error_exit` popup on `IOError`, then control returns), append the
`s3tbx.properties` lines (warning only on `IOError`), copy the offline
module updates, run `snap64 --update-all`, and activate the SNAP plugin. -/
def stage4EventsNext (env : Env) (v : InstallVars) (sp : String) : List Event :=
  let sp2 := pjoin [v.osgeo, "apps", "Python37", "lib", "site-packages"]
  let snappyIni := pjoin [sp2, "snappy", "snappy.ini"]
  let s3tbx := pjoin [env.home, ".snap", "etc", "s3tbx.properties"]
  [Event.toolCall ("fix_jpyconfig " ++ pjoin [sp, "jpyconfig.py"]),
   Event.execInstaller (.args [pjoin [v.snap, "bin", "snap64.exe"], "--nogui",
     "--python", pjoin [v.osgeo, "bin", "python-qgis-ltr.bat"], sp2])]
  ++ (if env.writeOk snappyIni then [Event.writeFile snappyIni] else [])
  ++ (if env.ramOk then
        [Event.toolCall ("modifyRamInBatFiles " ++ pjoin [v.snap, "bin", "gpt.vmoptions"])]
      else [Event.errorPopup "modifyRamInBatFiles IOError"])
  ++ (if env.writeOk s3tbx then [Event.writeFile s3tbx] else [])
  ++ [Event.copyDir "SNAP additional modules" v.snap,
      Event.execInstaller (.args [pjoin [v.snap, "bin", "snap64.exe"], "--nogui",
        "--modules", "--update-all"])]
  ++ activateThisEvents
      ["PythonPlugins/processing_gpf",
       "Processing/configuration/ACTIVATE_SNAP",
       "Processing/configuration/S1TBX_ACTIVATE",
       "Processing/configuration/S2TBX_ACTIVATE"]
  ++ [Event.setSetting "Processing/configuration/SNAP_FOLDER" v.snap]

/-- Dialog 4: the SNAP install window (installer.py lines 177-243).  `NEXT`
launches the SNAP installer and then reads `site_packages_dir` (assigned only
in the `NEXT` branch of dialog 3): a `NameError` if it is unassigned. -/
def stage4 (env : Env) (s : St) : SeqStep :=
  match env.outcomes 4 with
  | .next =>
    match s.vars with
    | none =>
      .done (.crashed (.nameError "snapInstall"))
        (s.push 4 [.dialogShown "GenericInstallWindow SNAP"])
    | some v =>
      match s.sitePkgs with
      | none =>
        .done (.crashed (.nameError "site_packages_dir"))
          (s.push 4 [.dialogShown "GenericInstallWindow SNAP",
                     .execInstaller (.args v.snapInstallCmd)])
      | some sp =>
        .cont ((s.push 4
            ([.dialogShown "GenericInstallWindow SNAP",
              .execInstaller (.args v.snapInstallCmd)]
             ++ stage4EventsNext env v sp)).setSitePkgs
          (pjoin [v.osgeo, "apps", "Python37", "lib", "site-packages"]))
  | .skip =>
    .cont (s.push 4 [.dialogShown "GenericInstallWindow SNAP"])
  | .cancel =>
    .done .cancelled (s.push 4 [.dialogShown "GenericInstallWindow SNAP"])
  | .unknown =>
    .cont (s.push 4 [.dialogShown "GenericInstallWindow SNAP", .popupUnknownAction])

/-- Dialog 5: the R install window (installer.py lines 248-262).  `NEXT` runs
the R installer. -/
def stage5 (env : Env) (s : St) : SeqStep :=
  match env.outcomes 5 with
  | .next =>
    match s.vars with
    | none =>
      .done (.crashed (.nameError "rInstall"))
        (s.push 5 [.dialogShown "GenericInstallWindow R"])
    | some v =>
      .cont (s.push 5 [.dialogShown "GenericInstallWindow R",
                       .execInstaller (.str v.rInstall)])
  | .skip =>
    .cont (s.push 5 [.dialogShown "GenericInstallWindow R"])
  | .cancel =>
    .done .cancelled (s.push 5 [.dialogShown "GenericInstallWindow R"])
  | .unknown =>
    .cont (s.push 5 [.dialogShown "GenericInstallWindow R", .popupUnknownAction])

/-- Dialog 6: the R post-install directory dialog (installer.py lines
265-278).  Constructing it reads `install_dirs['R']`; it is presented even if
the R installation step was skipped.  `NEXT` updates `install_dirs['R']` and
activates the R plugin. -/
def stage6 (env : Env) (s : St) : SeqStep :=
  match s.vars with
  | none => .done (.crashed (.nameError "install_dirs")) s
  | some v =>
    match env.outcomes 6 with
    | .next =>
      let rdir := env.dirText 6
      .cont ((s.push 6
          [.dialogShown "DirPathPostInstallWindow R",
           .setSetting "PythonPlugins/processing_r" "true",
           .setSetting "Processing/configuration/R_FOLDER" rdir,
           .setSetting "Processing/configuration/R_USE64" "true"]).setVars
        { v with r := rdir })
    | .skip =>
      .cont (s.push 6 [.dialogShown "DirPathPostInstallWindow R"])
    | .cancel =>
      .done .cancelled (s.push 6 [.dialogShown "DirPathPostInstallWindow R"])
    | .unknown =>
      .cont (s.push 6 [.dialogShown "DirPathPostInstallWindow R", .popupUnknownAction])

/-- Dialog 7: the finish window (installer.py lines 281-283); its outcome is
ignored. -/
def stage7 (_env : Env) (s : St) : SeqStep :=
  .cont (s.push 7 [.dialogShown "finishWindow"])

/-- Run the remaining stages in order; a `SeqStep.done` stops the run. -/
def runFlow (env : Env) : List (Env → St → SeqStep) → St → RunEnd × St
  | [], s => (.completed, s)
  | f :: fs, s =>
    match f env s with
    | .done e s2 => (e, s2)
    | .cont s2 => runFlow env fs s2

def tail7 : List (Env → St → SeqStep) := [stage7]

def tail6 : List (Env → St → SeqStep) := stage6 :: tail7

def tail5 : List (Env → St → SeqStep) := stage5 :: tail6

def tail4 : List (Env → St → SeqStep) := stage4 :: tail5

def tail3 : List (Env → St → SeqStep) := stage3 :: tail4

def tail2 : List (Env → St → SeqStep) := stage2 :: tail3

def tail1 : List (Env → St → SeqStep) := stage1 :: tail2

def tail0 : List (Env → St → SeqStep) := stage0 :: tail1

/-- The initial sequencer state. -/
def initSt : St := { trace := [], vars := none, sitePkgs := none }

/-- `Installer.runInstaller` (installer.py lines 48-283). -/
def runInstaller (env : Env) : RunEnd × St :=
  runFlow env tail0 initSt

/-! ## Generic facts about stages and `runFlow` -/

/-- The state carried by a `SeqStep`. -/
def SeqStep.st : SeqStep → St
  | .done _ s => s
  | .cont s => s

theorem runFlow_nil (env : Env) (s : St) : runFlow env [] s = (.completed, s) := rfl

theorem runFlow_cons_done {env : Env} {f : Env → St → SeqStep}
    {fs : List (Env → St → SeqStep)} {s : St} {e : RunEnd} {s2 : St}
    (h : f env s = .done e s2) : runFlow env (f :: fs) s = (e, s2) := by
  simp [runFlow, h]

theorem runFlow_cons_cont {env : Env} {f : Env → St → SeqStep}
    {fs : List (Env → St → SeqStep)} {s : St} {s2 : St}
    (h : f env s = .cont s2) : runFlow env (f :: fs) s = runFlow env fs s2 := by
  simp [runFlow, h]

@[simp] theorem push_trace (s : St) (k : Nat) (es : List Event) :
    (s.push k es).trace = s.trace ++ tagged k es := rfl

@[simp] theorem push_vars (s : St) (k : Nat) (es : List Event) :
    (s.push k es).vars = s.vars := rfl

@[simp] theorem push_sitePkgs (s : St) (k : Nat) (es : List Event) :
    (s.push k es).sitePkgs = s.sitePkgs := rfl

@[simp] theorem setVars_trace (s : St) (v : InstallVars) :
    (s.setVars v).trace = s.trace := rfl

@[simp] theorem setVars_vars (s : St) (v : InstallVars) :
    (s.setVars v).vars = some v := rfl

@[simp] theorem setVars_sitePkgs (s : St) (v : InstallVars) :
    (s.setVars v).sitePkgs = s.sitePkgs := rfl

@[simp] theorem setSitePkgs_trace (s : St) (sp : String) :
    (s.setSitePkgs sp).trace = s.trace := rfl

@[simp] theorem setSitePkgs_vars (s : St) (sp : String) :
    (s.setSitePkgs sp).vars = s.vars := rfl

@[simp] theorem setSitePkgs_sitePkgs (s : St) (sp : String) :
    (s.setSitePkgs sp).sitePkgs = some sp := rfl

@[simp] theorem mem_tagged {t : Nat} {e : Event} {k : Nat} {es : List Event} :
    (t, e) ∈ tagged k es ↔ t = k ∧ e ∈ es := by
  constructor
  · intro h
    rcases List.mem_map.mp h with ⟨a, ha, heq⟩
    rcases Prod.mk.injEq .. ▸ heq with ⟨h1, h2⟩
    exact ⟨h1.symm, h2 ▸ ha⟩
  · rintro ⟨rfl, he⟩
    exact List.mem_map.mpr ⟨e, he, rfl⟩

/-- Every stage extends the trace only by events tagged with its own dialog
index. -/
def ShapeFact (k : Nat) (f : Env → St → SeqStep) : Prop :=
  ∀ env s, ∃ L, (f env s).st.trace = s.trace ++ tagged k L

/-- When the stage's dialog outcome is CANCEL, the stage either crashes before
showing its dialog (leaving the state untouched) or shows the dialog and
immediately returns `cancelled` with no further effect. -/
def CancelFact (k : Nat) (f : Env → St → SeqStep) : Prop :=
  ∀ env s, env.outcomes k = .cancel →
    (∃ e, f env s = .done (.crashed e) s) ∨
    (∃ nm, f env s = .done .cancelled (s.push k [.dialogShown nm]))

/-- Every `delDir` event a stage can emit targets one of the
`plugins_to_delete` entries under the profile's plugin directory. -/
def DelFact (f : Env → St → SeqStep) : Prop :=
  ∀ env s t p, (t, Event.delDir p) ∈ (f env s).st.trace →
    (t, Event.delDir p) ∈ s.trace ∨
    ∃ plug, plug ∈ plugins_to_delete ∧
      p = pjoin [pjoin [qgisProfilePath env.home, "python", "plugins"], plug]

/-- `runFlow` only appends events, all tagged at least `k`. -/
def TagsProp (k : Nat) (l : List (Env → St → SeqStep)) : Prop :=
  ∀ env s, ∃ new, (runFlow env l s).2.trace = s.trace ++ new
    ∧ ∀ p ∈ new, k ≤ p.1

/-- The CANCEL claim as a property of a stage list starting at dialog `k`. -/
def C1Prop (k : Nat) (l : List (Env → St → SeqStep)) : Prop :=
  ∀ env s, (∀ p ∈ s.trace, p.1 < k) →
    ∀ j nm, k ≤ j → env.outcomes j = .cancel →
      (j, Event.dialogShown nm) ∈ (runFlow env l s).2.trace →
      ((runFlow env l s).1 = .cancelled ∨ (runFlow env l s).1 = .completed)
      ∧ ∀ p ∈ (runFlow env l s).2.trace, j ≤ p.1 → p = (j, Event.dialogShown nm)

/-- The `delDir` inventory as a property of a stage list. -/
def DelProp (l : List (Env → St → SeqStep)) : Prop :=
  ∀ env s t p, (t, Event.delDir p) ∈ (runFlow env l s).2.trace →
    (t, Event.delDir p) ∈ s.trace ∨
    ∃ plug, plug ∈ plugins_to_delete ∧
      p = pjoin [pjoin [qgisProfilePath env.home, "python", "plugins"], plug]

theorem tagsProp_nil (k : Nat) : TagsProp k [] := by
  intro env s
  exact ⟨[], by simp [runFlow_nil], by simp⟩

theorem tagsProp_step {k : Nat} {f : Env → St → SeqStep}
    {fs : List (Env → St → SeqStep)}
    (hshape : ShapeFact k f) (ht : TagsProp (k + 1) fs) :
    TagsProp k (f :: fs) := by
  intro env s
  rcases hshape env s with ⟨L, htr⟩
  cases hcase : f env s with
  | done e s2 =>
    rw [hcase] at htr
    simp only [SeqStep.st] at htr
    refine ⟨tagged k L, ?_, ?_⟩
    · rw [runFlow_cons_done hcase]
      exact htr
    · intro p hp
      rcases List.mem_map.mp hp with ⟨a, _, rfl⟩
      exact le_refl k
  | cont s2 =>
    rw [hcase] at htr
    simp only [SeqStep.st] at htr
    rcases ht env s2 with ⟨new, hnew, hb⟩
    refine ⟨tagged k L ++ new, ?_, ?_⟩
    · rw [runFlow_cons_cont hcase, hnew, htr, List.append_assoc]
    · intro p hp
      rcases List.mem_append.mp hp with h | h
      · rcases List.mem_map.mp h with ⟨a, _, rfl⟩
        exact le_refl k
      · exact le_trans (Nat.le_succ k) (hb p h)

theorem c1Prop_nil (k : Nat) : C1Prop k [] := by
  intro env s hinv j nm hkj _ hmem
  rw [runFlow_nil] at hmem
  exact absurd (hinv _ hmem) (by omega)

theorem c1Prop_step {k : Nat} {f : Env → St → SeqStep}
    {fs : List (Env → St → SeqStep)}
    (hshape : ShapeFact k f) (hcancel : CancelFact k f)
    (hc1 : C1Prop (k + 1) fs) :
    C1Prop k (f :: fs) := by
  intro env s hinv j nm hkj hjc hmem
  by_cases hck : env.outcomes k = .cancel
  · rcases hcancel env s hck with ⟨e, hf⟩ | ⟨nm2, hf⟩
    · rw [runFlow_cons_done hf] at hmem ⊢
      exact absurd (hinv _ hmem) (by omega)
    · rw [runFlow_cons_done hf] at hmem ⊢
      simp only [push_trace, List.mem_append] at hmem
      rcases hmem with h | h
      · exact absurd (hinv _ h) (by omega)
      · rcases mem_tagged.mp h with ⟨hjk, hnm⟩
        simp only [List.mem_singleton] at hnm
        subst hjk
        refine ⟨Or.inl rfl, ?_⟩
        intro p hp hjp
        simp only [push_trace, List.mem_append] at hp
        rcases hp with h2 | h2
        · exact absurd (hinv _ h2) (by omega)
        · rcases p with ⟨t, ev⟩
          rcases mem_tagged.mp h2 with ⟨rfl, hev⟩
          simp only [List.mem_singleton] at hev
          rw [hev, hnm]
  · have hjk : k + 1 ≤ j := by
      rcases Nat.eq_or_lt_of_le hkj with h | h
      · exact absurd (h ▸ hjc) hck
      · omega
    rcases hshape env s with ⟨L, htr⟩
    cases hcase : f env s with
    | done e s2 =>
      rw [hcase] at htr
      simp only [SeqStep.st] at htr
      rw [runFlow_cons_done hcase] at hmem ⊢
      rw [htr] at hmem
      rcases List.mem_append.mp hmem with h | h
      · exact absurd (hinv _ h) (by omega)
      · rcases mem_tagged.mp h with ⟨hjk2, _⟩
        omega
    | cont s2 =>
      rw [hcase] at htr
      simp only [SeqStep.st] at htr
      rw [runFlow_cons_cont hcase] at hmem ⊢
      refine hc1 env s2 ?_ j nm hjk hjc hmem
      intro p hp
      rw [htr] at hp
      rcases List.mem_append.mp hp with h | h
      · exact Nat.lt_succ_of_lt (hinv _ h)
      · rcases p with ⟨t, ev⟩
        rcases mem_tagged.mp h with ⟨rfl, _⟩
        omega

theorem delProp_nil : DelProp [] := by
  intro env s t p hmem
  rw [runFlow_nil] at hmem
  exact Or.inl hmem

theorem delProp_step {f : Env → St → SeqStep} {fs : List (Env → St → SeqStep)}
    (hf : DelFact f) (hd : DelProp fs) : DelProp (f :: fs) := by
  intro env s t p hmem
  cases hcase : f env s with
  | done e s2 =>
    rw [runFlow_cons_done hcase] at hmem
    exact hf env s t p (by rw [hcase]; exact hmem)
  | cont s2 =>
    rw [runFlow_cons_cont hcase] at hmem
    rcases hd env s2 t p hmem with h | h
    · exact hf env s t p (by rw [hcase]; exact h)
    · exact Or.inr h

/-! ## Per-stage facts -/

theorem delDir_not_mem_activateThis (names : List String) (p : String) :
    Event.delDir p ∉ activateThisEvents names := by
  intro h
  rcases List.mem_map.mp h with ⟨n, _, heq⟩
  simp at heq

theorem delDir_not_mem_appTryBody (gl otb : List String) (p : String) :
    Event.delDir p ∉ (appTryBody gl otb).1 := by
  intro h
  unfold appTryBody at h
  rcases hg : gl.getLast? with _ | gf
  · rw [hg] at h
    simp at h
  · rw [hg] at h
    rcases hotb : otb.head? with _ | o
    · rw [hotb] at h
      by_cases hc : containsStr gf "grass-" = true <;> simp [hc] at h
    · rw [hotb] at h
      by_cases hc : containsStr gf "grass-" = true <;> simp [hc] at h

theorem delDir_not_mem_app (glob : String → List String) (isDir : String → Bool)
    (d p : String) : Event.delDir p ∉ (activateProcessingProviders glob isDir d).1 := by
  intro h
  simp only [activateProcessingProviders, List.mem_append] at h
  rcases h with h | h
  · simp [appFixedEvents, activateThisEvents] at h
  · exact delDir_not_mem_appTryBody _ _ p h

theorem delDir_not_mem_stage4Events (env : Env) (v : InstallVars) (sp p : String) :
    Event.delDir p ∉ stage4EventsNext env v sp := by
  intro h
  unfold stage4EventsNext at h
  by_cases h1 : env.writeOk (pjoin [pjoin [v.osgeo, "apps", "Python37", "lib",
      "site-packages"], "snappy", "snappy.ini"]) = true <;>
  by_cases h2 : env.ramOk = true <;>
  by_cases h3 : env.writeOk (pjoin [env.home, ".snap", "etc", "s3tbx.properties"]) = true <;>
    simp [h1, h2, h3, activateThisEvents] at h

/-- Membership of a `delDir` event in the OSGeo4W post-install branch comes
from the `plugins_to_delete` loop. -/
theorem delDir_mem_stage3Events {env : Env} {d p : String}
    (h : Event.delDir p ∈ (stage3EventsNext env d).1) :
    ∃ plug, plug ∈ plugins_to_delete ∧
      p = pjoin [pjoin [qgisProfilePath env.home, "python", "plugins"], plug] := by
  unfold stage3EventsNext at h
  by_cases hbat : env.isFile (pjoin [d, "bin", "o4w_env.bat"]) = true <;>
  by_cases hreq : env.isFile (pjoin [pjoin [qgisExtrasDir, "python_packages_pip"],
      "requirements.txt"]) = true <;>
    simp only [hbat, hreq, if_true, if_false, Bool.false_eq_true,
      List.append_assoc, List.mem_append, List.mem_map, List.mem_singleton,
      List.not_mem_nil, or_false, false_or,
      activatePluginsEvents, activateThisEvents] at h <;>
  · rcases h with ⟨plug, hplug, heq⟩ | h
    · simp only [Event.delDir.injEq] at heq
      exact ⟨plug, hplug, heq.symm⟩
    · exfalso
      revert h
      simp [delDir_not_mem_app]

theorem shape0 : ShapeFact 0 stage0 := by
  intro env s
  rcases ho : env.outcomes 0 with _ | _ | _ | _
  · exact ⟨[.dialogShown "installerWelcomeWindow"], by simp [stage0, ho, SeqStep.st]⟩
  · exact ⟨[.dialogShown "installerWelcomeWindow", .popupUnknownAction],
      by simp [stage0, ho, SeqStep.st]⟩
  · exact ⟨[.dialogShown "installerWelcomeWindow"], by simp [stage0, ho, SeqStep.st]⟩
  · exact ⟨[.dialogShown "installerWelcomeWindow", .popupUnknownAction],
      by simp [stage0, ho, SeqStep.st]⟩

theorem shape1 : ShapeFact 1 stage1 := by
  intro env s
  rcases ho : env.outcomes 1 with _ | _ | _ | _ <;>
    exact ⟨[.dialogShown "uninstallInstructionsWindow"], by simp [stage1, ho, SeqStep.st]⟩

theorem shape2 : ShapeFact 2 stage2 := by
  intro env s
  rcases ho : env.outcomes 2 with _ | _ | _ | _
  · rcases hv : s.vars with _ | v
    · exact ⟨[.dialogShown "GenericInstallWindow OSGeo4W"],
        by simp [stage2, ho, hv, SeqStep.st]⟩
    · exact ⟨[.dialogShown "GenericInstallWindow OSGeo4W",
        .execInstaller (.str v.osgeo4wInstall),
        .extractZip v.otbInstall (pjoin [v.osgeo, "apps"])],
        by simp [stage2, ho, hv, SeqStep.st]⟩
  · exact ⟨[.dialogShown "GenericInstallWindow OSGeo4W"], by simp [stage2, ho, SeqStep.st]⟩
  · exact ⟨[.dialogShown "GenericInstallWindow OSGeo4W"], by simp [stage2, ho, SeqStep.st]⟩
  · exact ⟨[.dialogShown "GenericInstallWindow OSGeo4W", .popupUnknownAction],
      by simp [stage2, ho, SeqStep.st]⟩

theorem shape3 : ShapeFact 3 stage3 := by
  intro env s
  rcases hv : s.vars with _ | v
  · exact ⟨[], by simp [stage3, hv, SeqStep.st, tagged]⟩
  · rcases ho : env.outcomes 3 with _ | _ | _ | _
    · cases hb : (stage3EventsNext env (env.dirText 3)).2 with
      | error e =>
        exact ⟨Event.dialogShown "DirPathPostInstallWindow OSGeo4W"
            :: (stage3EventsNext env (env.dirText 3)).1,
          by simp [stage3, hv, ho, hb, SeqStep.st]⟩
      | ok u =>
        exact ⟨Event.dialogShown "DirPathPostInstallWindow OSGeo4W"
            :: (stage3EventsNext env (env.dirText 3)).1,
          by simp [stage3, hv, ho, hb, SeqStep.st]⟩
    · exact ⟨[.dialogShown "DirPathPostInstallWindow OSGeo4W"],
        by simp [stage3, hv, ho, SeqStep.st]⟩
    · exact ⟨[.dialogShown "DirPathPostInstallWindow OSGeo4W"],
        by simp [stage3, hv, ho, SeqStep.st]⟩
    · exact ⟨[.dialogShown "DirPathPostInstallWindow OSGeo4W", .popupUnknownAction],
        by simp [stage3, hv, ho, SeqStep.st]⟩

theorem shape4 : ShapeFact 4 stage4 := by
  intro env s
  rcases ho : env.outcomes 4 with _ | _ | _ | _
  · rcases hv : s.vars with _ | v
    · exact ⟨[.dialogShown "GenericInstallWindow SNAP"],
        by simp [stage4, ho, hv, SeqStep.st]⟩
    · rcases hsp : s.sitePkgs with _ | sp
      · exact ⟨[.dialogShown "GenericInstallWindow SNAP",
          .execInstaller (.args v.snapInstallCmd)],
          by simp [stage4, ho, hv, hsp, SeqStep.st]⟩
      · exact ⟨[Event.dialogShown "GenericInstallWindow SNAP",
          Event.execInstaller (.args v.snapInstallCmd)] ++ stage4EventsNext env v sp,
          by simp [stage4, ho, hv, hsp, SeqStep.st]⟩
  · exact ⟨[.dialogShown "GenericInstallWindow SNAP"], by simp [stage4, ho, SeqStep.st]⟩
  · exact ⟨[.dialogShown "GenericInstallWindow SNAP"], by simp [stage4, ho, SeqStep.st]⟩
  · exact ⟨[.dialogShown "GenericInstallWindow SNAP", .popupUnknownAction],
      by simp [stage4, ho, SeqStep.st]⟩

theorem shape5 : ShapeFact 5 stage5 := by
  intro env s
  rcases ho : env.outcomes 5 with _ | _ | _ | _
  · rcases hv : s.vars with _ | v
    · exact ⟨[.dialogShown "GenericInstallWindow R"], by simp [stage5, ho, hv, SeqStep.st]⟩
    · exact ⟨[.dialogShown "GenericInstallWindow R", .execInstaller (.str v.rInstall)],
        by simp [stage5, ho, hv, SeqStep.st]⟩
  · exact ⟨[.dialogShown "GenericInstallWindow R"], by simp [stage5, ho, SeqStep.st]⟩
  · exact ⟨[.dialogShown "GenericInstallWindow R"], by simp [stage5, ho, SeqStep.st]⟩
  · exact ⟨[.dialogShown "GenericInstallWindow R", .popupUnknownAction],
      by simp [stage5, ho, SeqStep.st]⟩

theorem shape6 : ShapeFact 6 stage6 := by
  intro env s
  rcases hv : s.vars with _ | v
  · exact ⟨[], by simp [stage6, hv, SeqStep.st, tagged]⟩
  · rcases ho : env.outcomes 6 with _ | _ | _ | _
    · exact ⟨[.dialogShown "DirPathPostInstallWindow R",
        .setSetting "PythonPlugins/processing_r" "true",
        .setSetting "Processing/configuration/R_FOLDER" (env.dirText 6),
        .setSetting "Processing/configuration/R_USE64" "true"],
        by simp [stage6, hv, ho, SeqStep.st]⟩
    · exact ⟨[.dialogShown "DirPathPostInstallWindow R"], by simp [stage6, hv, ho, SeqStep.st]⟩
    · exact ⟨[.dialogShown "DirPathPostInstallWindow R"], by simp [stage6, hv, ho, SeqStep.st]⟩
    · exact ⟨[.dialogShown "DirPathPostInstallWindow R", .popupUnknownAction],
        by simp [stage6, hv, ho, SeqStep.st]⟩

theorem shape7 : ShapeFact 7 stage7 := by
  intro env s
  exact ⟨[.dialogShown "finishWindow"], by simp [stage7, SeqStep.st]⟩

theorem cancel0 : CancelFact 0 stage0 := by
  intro env s h
  exact Or.inr ⟨"installerWelcomeWindow", by simp [stage0, h]⟩

theorem cancel1 : CancelFact 1 stage1 := by
  intro env s h
  exact Or.inr ⟨"uninstallInstructionsWindow", by simp [stage1, h]⟩

theorem cancel2 : CancelFact 2 stage2 := by
  intro env s h
  exact Or.inr ⟨"GenericInstallWindow OSGeo4W", by simp [stage2, h]⟩

theorem cancel3 : CancelFact 3 stage3 := by
  intro env s h
  rcases hv : s.vars with _ | v
  · exact Or.inl ⟨.nameError "install_dirs", by simp [stage3, hv]⟩
  · exact Or.inr ⟨"DirPathPostInstallWindow OSGeo4W", by simp [stage3, hv, h]⟩

theorem cancel4 : CancelFact 4 stage4 := by
  intro env s h
  exact Or.inr ⟨"GenericInstallWindow SNAP", by simp [stage4, h]⟩

theorem cancel5 : CancelFact 5 stage5 := by
  intro env s h
  exact Or.inr ⟨"GenericInstallWindow R", by simp [stage5, h]⟩

theorem cancel6 : CancelFact 6 stage6 := by
  intro env s h
  rcases hv : s.vars with _ | v
  · exact Or.inl ⟨.nameError "install_dirs", by simp [stage6, hv]⟩
  · exact Or.inr ⟨"DirPathPostInstallWindow R", by simp [stage6, hv, h]⟩

/-- A stage that only appends `delDir`-free events satisfies `DelFact`. -/
theorem delFact_of_clean {k : Nat} {f : Env → St → SeqStep}
    (hclean : ∀ env s, ∃ L, (f env s).st.trace = s.trace ++ tagged k L
      ∧ ∀ q, Event.delDir q ∉ L) : DelFact f := by
  intro env s t p h
  rcases hclean env s with ⟨L, htr, hno⟩
  rw [htr] at h
  rcases List.mem_append.mp h with h | h
  · exact Or.inl h
  · rcases mem_tagged.mp h with ⟨_, hev⟩
    exact absurd hev (hno p)

theorem del0 : DelFact stage0 := by
  refine delFact_of_clean (k := 0) ?_
  intro env s
  rcases ho : env.outcomes 0 with _ | _ | _ | _
  · exact ⟨[.dialogShown "installerWelcomeWindow"],
      by simp [stage0, ho, SeqStep.st], by simp⟩
  · exact ⟨[.dialogShown "installerWelcomeWindow", .popupUnknownAction],
      by simp [stage0, ho, SeqStep.st], by simp⟩
  · exact ⟨[.dialogShown "installerWelcomeWindow"],
      by simp [stage0, ho, SeqStep.st], by simp⟩
  · exact ⟨[.dialogShown "installerWelcomeWindow", .popupUnknownAction],
      by simp [stage0, ho, SeqStep.st], by simp⟩

theorem del1 : DelFact stage1 := by
  refine delFact_of_clean (k := 1) ?_
  intro env s
  rcases ho : env.outcomes 1 with _ | _ | _ | _ <;>
    exact ⟨[.dialogShown "uninstallInstructionsWindow"],
      by simp [stage1, ho, SeqStep.st], by simp⟩

theorem del2 : DelFact stage2 := by
  refine delFact_of_clean (k := 2) ?_
  intro env s
  rcases ho : env.outcomes 2 with _ | _ | _ | _
  · rcases hv : s.vars with _ | v
    · exact ⟨[.dialogShown "GenericInstallWindow OSGeo4W"],
        by simp [stage2, ho, hv, SeqStep.st], by simp⟩
    · exact ⟨[.dialogShown "GenericInstallWindow OSGeo4W",
        .execInstaller (.str v.osgeo4wInstall),
        .extractZip v.otbInstall (pjoin [v.osgeo, "apps"])],
        by simp [stage2, ho, hv, SeqStep.st], by simp⟩
  · exact ⟨[.dialogShown "GenericInstallWindow OSGeo4W"],
      by simp [stage2, ho, SeqStep.st], by simp⟩
  · exact ⟨[.dialogShown "GenericInstallWindow OSGeo4W"],
      by simp [stage2, ho, SeqStep.st], by simp⟩
  · exact ⟨[.dialogShown "GenericInstallWindow OSGeo4W", .popupUnknownAction],
      by simp [stage2, ho, SeqStep.st], by simp⟩

theorem del3 : DelFact stage3 := by
  intro env s t p h
  rcases hv : s.vars with _ | v
  · simp only [stage3, hv, SeqStep.st] at h
    exact Or.inl h
  · rcases ho : env.outcomes 3 with _ | _ | _ | _
    · have htr : (stage3 env s).st.trace
          = s.trace ++ tagged 3 (Event.dialogShown "DirPathPostInstallWindow OSGeo4W"
            :: (stage3EventsNext env (env.dirText 3)).1) := by
        cases hb : (stage3EventsNext env (env.dirText 3)).2 with
        | error e => simp [stage3, hv, ho, hb, SeqStep.st]
        | ok u => simp [stage3, hv, ho, hb, SeqStep.st]
      rw [htr] at h
      rcases List.mem_append.mp h with h | h
      · exact Or.inl h
      · rcases mem_tagged.mp h with ⟨_, hev⟩
        rcases List.mem_cons.mp hev with h2 | h2
        · simp at h2
        · exact Or.inr (delDir_mem_stage3Events h2)
    · simp only [stage3, hv, ho, SeqStep.st, push_trace] at h
      rcases List.mem_append.mp h with h | h
      · exact Or.inl h
      · rcases mem_tagged.mp h with ⟨_, hev⟩
        simp at hev
    · simp only [stage3, hv, ho, SeqStep.st, push_trace] at h
      rcases List.mem_append.mp h with h | h
      · exact Or.inl h
      · rcases mem_tagged.mp h with ⟨_, hev⟩
        simp at hev
    · simp only [stage3, hv, ho, SeqStep.st, push_trace] at h
      rcases List.mem_append.mp h with h | h
      · exact Or.inl h
      · rcases mem_tagged.mp h with ⟨_, hev⟩
        simp at hev

theorem del4 : DelFact stage4 := by
  refine delFact_of_clean (k := 4) ?_
  intro env s
  rcases ho : env.outcomes 4 with _ | _ | _ | _
  · rcases hv : s.vars with _ | v
    · exact ⟨[.dialogShown "GenericInstallWindow SNAP"],
        by simp [stage4, ho, hv, SeqStep.st], by simp⟩
    · rcases hsp : s.sitePkgs with _ | sp
      · exact ⟨[.dialogShown "GenericInstallWindow SNAP",
          .execInstaller (.args v.snapInstallCmd)],
          by simp [stage4, ho, hv, hsp, SeqStep.st], by simp⟩
      · refine ⟨[Event.dialogShown "GenericInstallWindow SNAP",
          Event.execInstaller (.args v.snapInstallCmd)] ++ stage4EventsNext env v sp,
          by simp [stage4, ho, hv, hsp, SeqStep.st], ?_⟩
        intro q hq
        rcases List.mem_append.mp hq with h | h
        · simp at h
        · exact delDir_not_mem_stage4Events env v sp q h
  · exact ⟨[.dialogShown "GenericInstallWindow SNAP"],
      by simp [stage4, ho, SeqStep.st], by simp⟩
  · exact ⟨[.dialogShown "GenericInstallWindow SNAP"],
      by simp [stage4, ho, SeqStep.st], by simp⟩
  · exact ⟨[.dialogShown "GenericInstallWindow SNAP", .popupUnknownAction],
      by simp [stage4, ho, SeqStep.st], by simp⟩

theorem del5 : DelFact stage5 := by
  refine delFact_of_clean (k := 5) ?_
  intro env s
  rcases ho : env.outcomes 5 with _ | _ | _ | _
  · rcases hv : s.vars with _ | v
    · exact ⟨[.dialogShown "GenericInstallWindow R"],
        by simp [stage5, ho, hv, SeqStep.st], by simp⟩
    · exact ⟨[.dialogShown "GenericInstallWindow R", .execInstaller (.str v.rInstall)],
        by simp [stage5, ho, hv, SeqStep.st], by simp⟩
  · exact ⟨[.dialogShown "GenericInstallWindow R"], by simp [stage5, ho, SeqStep.st], by simp⟩
  · exact ⟨[.dialogShown "GenericInstallWindow R"], by simp [stage5, ho, SeqStep.st], by simp⟩
  · exact ⟨[.dialogShown "GenericInstallWindow R", .popupUnknownAction],
      by simp [stage5, ho, SeqStep.st], by simp⟩

theorem del6 : DelFact stage6 := by
  refine delFact_of_clean (k := 6) ?_
  intro env s
  rcases hv : s.vars with _ | v
  · exact ⟨[], by simp [stage6, hv, SeqStep.st, tagged], by simp⟩
  · rcases ho : env.outcomes 6 with _ | _ | _ | _
    · exact ⟨[.dialogShown "DirPathPostInstallWindow R",
        .setSetting "PythonPlugins/processing_r" "true",
        .setSetting "Processing/configuration/R_FOLDER" (env.dirText 6),
        .setSetting "Processing/configuration/R_USE64" "true"],
        by simp [stage6, hv, ho, SeqStep.st], by simp⟩
    · exact ⟨[.dialogShown "DirPathPostInstallWindow R"],
        by simp [stage6, hv, ho, SeqStep.st], by simp⟩
    · exact ⟨[.dialogShown "DirPathPostInstallWindow R"],
        by simp [stage6, hv, ho, SeqStep.st], by simp⟩
    · exact ⟨[.dialogShown "DirPathPostInstallWindow R", .popupUnknownAction],
        by simp [stage6, hv, ho, SeqStep.st], by simp⟩

theorem del7 : DelFact stage7 := by
  refine delFact_of_clean (k := 7) ?_
  intro env s
  exact ⟨[.dialogShown "finishWindow"], by simp [stage7, SeqStep.st], by simp⟩

/-! ## Chained properties of the full run -/

theorem tags_tail7 : TagsProp 7 tail7 := tagsProp_step shape7 (tagsProp_nil 8)

theorem tags_tail6 : TagsProp 6 tail6 := tagsProp_step shape6 tags_tail7

theorem tags_tail5 : TagsProp 5 tail5 := tagsProp_step shape5 tags_tail6

theorem tags_tail4 : TagsProp 4 tail4 := tagsProp_step shape4 tags_tail5

theorem tags_tail3 : TagsProp 3 tail3 := tagsProp_step shape3 tags_tail4

theorem tags_tail2 : TagsProp 2 tail2 := tagsProp_step shape2 tags_tail3

theorem tags_tail1 : TagsProp 1 tail1 := tagsProp_step shape1 tags_tail2

theorem tags_tail0 : TagsProp 0 tail0 := tagsProp_step shape0 tags_tail1

/-- Once in the trace, an event stays in the trace of the completed run. -/
theorem runFlow_mono {l : List (Env → St → SeqStep)} {k : Nat} (ht : TagsProp k l)
    (env : Env) (s : St) {p : Nat × Event} (hp : p ∈ s.trace) :
    p ∈ (runFlow env l s).2.trace := by
  rcases ht env s with ⟨new, hnew, _⟩
  rw [hnew]
  exact List.mem_append_left _ hp

theorem c1_tail7 : C1Prop 7 tail7 := by
  intro env s hinv j nm hkj hjc hmem
  have hrun : runFlow env tail7 s
      = (.completed, s.push 7 [.dialogShown "finishWindow"]) := by
    simp [tail7, runFlow, stage7]
  rw [hrun] at hmem ⊢
  simp only [push_trace, List.mem_append] at hmem
  rcases hmem with h | h
  · exact absurd (hinv _ h) (by omega)
  · rcases mem_tagged.mp h with ⟨hj7, hev⟩
    simp only [List.mem_singleton] at hev
    subst hj7
    refine ⟨Or.inr rfl, ?_⟩
    intro p hp hjp
    simp only [push_trace, List.mem_append] at hp
    rcases hp with h2 | h2
    · exact absurd (hinv _ h2) (by omega)
    · rcases p with ⟨t, ev⟩
      rcases mem_tagged.mp h2 with ⟨rfl, hev2⟩
      simp only [List.mem_singleton] at hev2
      rw [hev2, hev]

theorem c1_tail6 : C1Prop 6 tail6 := c1Prop_step shape6 cancel6 c1_tail7

theorem c1_tail5 : C1Prop 5 tail5 := c1Prop_step shape5 cancel5 c1_tail6

theorem c1_tail4 : C1Prop 4 tail4 := c1Prop_step shape4 cancel4 c1_tail5

theorem c1_tail3 : C1Prop 3 tail3 := c1Prop_step shape3 cancel3 c1_tail4

theorem c1_tail2 : C1Prop 2 tail2 := c1Prop_step shape2 cancel2 c1_tail3

theorem c1_tail1 : C1Prop 1 tail1 := c1Prop_step shape1 cancel1 c1_tail2

theorem c1_tail0 : C1Prop 0 tail0 := c1Prop_step shape0 cancel0 c1_tail1

theorem del_tail0 : DelProp tail0 :=
  delProp_step del0 (delProp_step del1 (delProp_step del2 (delProp_step del3
    (delProp_step del4 (delProp_step del5 (delProp_step del6
      (delProp_step del7 delProp_nil)))))))

/-! ## Claim C1 -/

/-- C1: for every outcome sequence and every choice-dialog position `j`, if
the outcome observed at `j` is CANCEL (the dialog at `j` having actually been
shown), then the run raises no failure (it ends `cancelled`, or `completed`
when `j` is the finish window whose outcome is ignored), and the only trace
event at or after position `j` is the showing of that dialog itself: no later
step's bound action executes and no further settings are written. -/
theorem C1_cancel_terminates (env : Env) (j : Nat) (nm : String)
    (hjc : env.outcomes j = .cancel)
    (hmem : (j, Event.dialogShown nm) ∈ (runInstaller env).2.trace) :
    ((runInstaller env).1 = .cancelled ∨ (runInstaller env).1 = .completed)
    ∧ ∀ p ∈ (runInstaller env).2.trace, j ≤ p.1 → p = (j, Event.dialogShown nm) :=
  c1_tail0 env initSt (by intro p hp; simp [initSt] at hp) j nm (Nat.zero_le j)
    hjc hmem

/-- An environment whose operator cancels at the very first dialog. -/
def envC1 : Env :=
  { outcomes := fun _ => .cancel
    dirText := fun _ => ""
    home := "H"
    isFile := fun _ => false
    isDir := fun _ => false
    glob := fun _ => []
    writeOk := fun _ => false
    ramOk := true }

/-- Witness for C1: cancelling at the welcome window. -/
theorem C1_cancel_terminates_witness :
    envC1.outcomes 0 = .cancel
    ∧ (0, Event.dialogShown "installerWelcomeWindow") ∈ (runInstaller envC1).2.trace
    ∧ ((runInstaller envC1).1 = .cancelled ∨ (runInstaller envC1).1 = .completed) :=
  ⟨rfl, by decide,
   (C1_cancel_terminates envC1 0 "installerWelcomeWindow" rfl (by decide)).1⟩

/-! ## Claim C9 -/

/-- C9: the `plugins_to_delete` list has exactly 7 entries, one of which is
the concatenated name `pointsamplingtoolprocessing_gpf` (a missing comma in
the Python source); consequently no run ever emits a `deleteDir` call for the
plugin directories named `pointsamplingtool` or `processing_gpf`
individually. -/
theorem C9_plugins_list_concatenation :
    plugins_to_delete.length = 7
    ∧ "pointsamplingtoolprocessing_gpf" ∈ plugins_to_delete
    ∧ "pointsamplingtool" ∉ plugins_to_delete
    ∧ "processing_gpf" ∉ plugins_to_delete
    ∧ ∀ env : Env, ∀ t : Nat,
        (t, Event.delDir (pjoin [pjoin [qgisProfilePath env.home, "python", "plugins"],
          "pointsamplingtool"])) ∉ (runInstaller env).2.trace
        ∧ (t, Event.delDir (pjoin [pjoin [qgisProfilePath env.home, "python", "plugins"],
          "processing_gpf"])) ∉ (runInstaller env).2.trace := by
  refine ⟨by decide, by decide, by decide, by decide, ?_⟩
  intro env t
  constructor <;>
  · intro hmem
    unfold runInstaller at hmem
    rcases del_tail0 env initSt t _ hmem with h | ⟨plug, hplug, heq⟩
    · simp [initSt] at h
    · have h2 := pjoin_pair_cancel heq
      rw [← h2] at hplug
      exact absurd hplug (by decide)

/-- An environment that reaches the plugin-deletion loop (PROCEED at the
welcome window and at the OSGeo4W directory dialog). -/
def envC9 : Env :=
  { outcomes := fun k => if k == 0 then .next else if k == 3 then .next else .skip
    dirText := fun _ => "D:\\osgeo"
    home := "H"
    isFile := fun _ => true
    isDir := fun _ => false
    glob := fun _ => []
    writeOk := fun _ => true
    ramOk := true }

/-- Witness for C9: a run that deletes the concatenated plugin directory but
never the two individual ones. -/
theorem C9_plugins_list_concatenation_witness :
    ((3, Event.delDir (pjoin [pjoin [qgisProfilePath "H", "python", "plugins"],
        "pointsamplingtoolprocessing_gpf"])) ∈ (runInstaller envC9).2.trace)
    ∧ ((3, Event.delDir (pjoin [pjoin [qgisProfilePath "H", "python", "plugins"],
        "pointsamplingtool"])) ∉ (runInstaller envC9).2.trace) :=
  ⟨by decide, (C9_plugins_list_concatenation.2.2.2.2 envC9 3).1⟩

/-! ## Claim C2 -/

/-- An environment with an unrecognized outcome at the OSGeo4W install
dialog. -/
def envC2 : Env :=
  { outcomes := fun k => if k == 0 then .next else if k == 2 then .unknown else .skip
    dirText := fun _ => ""
    home := "H"
    isFile := fun _ => false
    isDir := fun _ => false
    glob := fun _ => []
    writeOk := fun _ => false
    ramOk := true }

/-- An environment with an unrecognized outcome at the uninstall-instructions
dialog. -/
def envC2b : Env :=
  { envC2 with
    outcomes := fun k => if k == 0 then .next else if k == 1 then .unknown else .skip }

/-- C2 (code evaluated at the failing input): an unrecognized outcome at the
OSGeo4W install step shows the unknown-action popup but does NOT halt — the
next step's dialog is still presented and the run completes normally; and at
the uninstall-instructions step an unrecognized outcome raises no popup at
all.  This contradicts the claim (and the popup's own "Quitting installation"
text). -/
theorem C2_unknown_outcome_not_halting :
    envC2.outcomes 2 = .unknown
    ∧ (2, Event.popupUnknownAction) ∈ (runInstaller envC2).2.trace
    ∧ (3, Event.dialogShown "DirPathPostInstallWindow OSGeo4W")
        ∈ (runInstaller envC2).2.trace
    ∧ (runInstaller envC2).1 = .completed
    ∧ envC2b.outcomes 1 = .unknown
    ∧ (1, Event.popupUnknownAction) ∉ (runInstaller envC2b).2.trace
    ∧ (2, Event.dialogShown "GenericInstallWindow OSGeo4W")
        ∈ (runInstaller envC2b).2.trace
    ∧ (runInstaller envC2b).1 = .completed := by
  refine ⟨rfl, by decide, by decide, by decide, rfl, by decide, by decide, by decide⟩

/-! ## Claim C4 -/

/-- An environment in which no `grass*` directory exists under
`apps\grass` (every glob is empty). -/
def envC4 : Env :=
  { outcomes := fun k => if k == 0 then .next else if k == 3 then .next else .skip
    dirText := fun _ => "C:\\OSGeo4W64"
    home := "H"
    isFile := fun _ => true
    isDir := fun _ => false
    glob := fun _ => []
    writeOk := fun _ => true
    ramOk := true }

/-- C4 (code evaluated at the failing input): when the GRASS candidate glob
is empty, `activateProcessingProviders` does NOT return normally —
`grass_folders[-1]` raises `IndexError`, which the `except (ValueError)`
handler does not catch, and the whole run crashes with it. -/
theorem C4_no_candidate_raises_indexerror :
    (activateProcessingProviders (fun _ => []) (fun _ => false) "C:\\OSGeo4W64").2
      = Except.error PyError.indexError
    ∧ catchValueError (Except.error PyError.indexError)
        = Except.error PyError.indexError
    ∧ (runInstaller envC4).1 = RunEnd.crashed PyError.indexError := by
  refine ⟨rfl, rfl, by decide⟩

/-! ## Claim C10 -/

/-- C10: on the normal path (PROCEED at the welcome window, no CANCEL up to
the SNAP step), if the OSGeo4W directory-confirmation outcome is SKIP then
`site_packages_dir` is never assigned, and choosing PROCEED at the SNAP step
crashes the run with an unbound-variable (`NameError`) on
`site_packages_dir` right after launching the SNAP installer — nothing past
dialog 4 runs. -/
theorem C10_snap_reads_unassigned_site_packages (env : Env)
    (h0 : env.outcomes 0 = .next) (h1 : env.outcomes 1 ≠ .cancel)
    (h2 : env.outcomes 2 ≠ .cancel) (h3 : env.outcomes 3 = .skip)
    (h4 : env.outcomes 4 = .next) :
    (runInstaller env).1 = .crashed (.nameError "site_packages_dir")
    ∧ ∀ p ∈ (runInstaller env).2.trace, p.1 ≤ 4 := by
  have e0 : stage0 env initSt
      = .cont ((initSt.push 0 [.dialogShown "installerWelcomeWindow"]).setVars
        initialVars) := by
    simp [stage0, h0]
  set s1 : St := (initSt.push 0 [.dialogShown "installerWelcomeWindow"]).setVars
    initialVars with hs1
  have e1 : stage1 env s1 = .cont (s1.push 1 [.dialogShown "uninstallInstructionsWindow"]) := by
    rcases ho1 : env.outcomes 1 with _ | _ | _ | _
    · simp [stage1, ho1]
    · simp [stage1, ho1]
    · exact absurd ho1 h1
    · simp [stage1, ho1]
  set s2 : St := s1.push 1 [.dialogShown "uninstallInstructionsWindow"] with hs2
  have hv2 : s2.vars = some initialVars := by simp [hs2, hs1]
  have e2 : ∃ L, stage2 env s2 = .cont (s2.push 2 L) := by
    rcases ho2 : env.outcomes 2 with _ | _ | _ | _
    · exact ⟨[.dialogShown "GenericInstallWindow OSGeo4W",
        .execInstaller (.str initialVars.osgeo4wInstall),
        .extractZip initialVars.otbInstall (pjoin [initialVars.osgeo, "apps"])],
        by simp [stage2, ho2, hv2]⟩
    · exact ⟨[.dialogShown "GenericInstallWindow OSGeo4W"], by simp [stage2, ho2]⟩
    · exact absurd ho2 h2
    · exact ⟨[.dialogShown "GenericInstallWindow OSGeo4W", .popupUnknownAction],
        by simp [stage2, ho2]⟩
  obtain ⟨L2, e2⟩ := e2
  set s3 : St := s2.push 2 L2 with hs3
  have hv3 : s3.vars = some initialVars := by simp [hs3, hv2]
  have e3 : stage3 env s3 = .cont (s3.push 3 [.dialogShown "DirPathPostInstallWindow OSGeo4W"]) := by
    rcases hvv : s3.vars with _ | v
    · rw [hvv] at hv3
      exact absurd hv3 (by simp)
    · simp [stage3, hvv, h3]
  set s4 : St := s3.push 3 [.dialogShown "DirPathPostInstallWindow OSGeo4W"] with hs4
  have hv4 : s4.vars = some initialVars := by simp [hs4, hv3]
  have hsp4 : s4.sitePkgs = none := by simp [hs4, hs3, hs2, hs1, initSt]
  have e4 : stage4 env s4 = .done (.crashed (.nameError "site_packages_dir"))
      (s4.push 4 [.dialogShown "GenericInstallWindow SNAP",
        .execInstaller (.args initialVars.snapInstallCmd)]) := by
    simp [stage4, h4, hv4, hsp4]
  have hrun : runInstaller env
      = (.crashed (.nameError "site_packages_dir"),
         s4.push 4 [.dialogShown "GenericInstallWindow SNAP",
           .execInstaller (.args initialVars.snapInstallCmd)]) := by
    calc runInstaller env = runFlow env tail0 initSt := rfl
      _ = runFlow env tail1 s1 := runFlow_cons_cont e0
      _ = runFlow env tail2 s2 := runFlow_cons_cont e1
      _ = runFlow env tail3 s3 := runFlow_cons_cont e2
      _ = runFlow env tail4 s4 := runFlow_cons_cont e3
      _ = _ := runFlow_cons_done e4
  rw [hrun]
  refine ⟨rfl, ?_⟩
  intro p hp
  simp only [push_trace, setVars_trace, hs4, hs3, hs2, hs1, initSt,
    List.append_assoc, List.mem_append, List.nil_append] at hp
  rcases hp with h | h | h | h | h <;>
    rcases p with ⟨t, ev⟩ <;>
    rcases mem_tagged.mp h with ⟨rfl, _⟩ <;>
    omega

/-- An environment for the C10 witness: outcomes
NEXT, SKIP, SKIP, SKIP, NEXT. -/
def envC10 : Env :=
  { outcomes := fun k => if k == 0 then .next else if k == 4 then .next else .skip
    dirText := fun _ => ""
    home := "H"
    isFile := fun _ => false
    isDir := fun _ => false
    glob := fun _ => []
    writeOk := fun _ => false
    ramOk := true }

/-- Witness for C10. -/
theorem C10_snap_reads_unassigned_site_packages_witness :
    (runInstaller envC10).1 = .crashed (.nameError "site_packages_dir") :=
  (C10_snap_reads_unassigned_site_packages envC10 (by decide) (by decide)
    (by decide) (by decide) (by decide)).1

/-! ## Claim C3 -/

/-- From the R directory dialog on, the dialog is always presented when the
welcome variables are assigned, whatever its outcome. -/
theorem tail6_shows_R (env : Env) (s : St) (v : InstallVars)
    (hv : s.vars = some v) :
    (6, Event.dialogShown "DirPathPostInstallWindow R")
      ∈ (runFlow env tail6 s).2.trace := by
  rcases ho : env.outcomes 6 with _ | _ | _ | _
  · have e6 : stage6 env s = .cont ((s.push 6
        [.dialogShown "DirPathPostInstallWindow R",
         .setSetting "PythonPlugins/processing_r" "true",
         .setSetting "Processing/configuration/R_FOLDER" (env.dirText 6),
         .setSetting "Processing/configuration/R_USE64" "true"]).setVars
        { v with r := env.dirText 6 }) := by
      simp [stage6, hv, ho]
    have hrun : runFlow env tail6 s = runFlow env tail7 _ := runFlow_cons_cont e6
    rw [hrun]
    refine runFlow_mono tags_tail7 env _ ?_
    simp
  · have e6 : stage6 env s
        = .cont (s.push 6 [.dialogShown "DirPathPostInstallWindow R"]) := by
      simp [stage6, hv, ho]
    have hrun : runFlow env tail6 s = runFlow env tail7 _ := runFlow_cons_cont e6
    rw [hrun]
    refine runFlow_mono tags_tail7 env _ ?_
    simp
  · have e6 : stage6 env s
        = .done .cancelled (s.push 6 [.dialogShown "DirPathPostInstallWindow R"]) := by
      simp [stage6, hv, ho]
    have hrun : runFlow env tail6 s = _ := runFlow_cons_done e6
    rw [hrun]
    simp
  · have e6 : stage6 env s
        = .cont (s.push 6 [.dialogShown "DirPathPostInstallWindow R",
            .popupUnknownAction]) := by
      simp [stage6, hv, ho]
    have hrun : runFlow env tail6 s = runFlow env tail7 _ := runFlow_cons_cont e6
    rw [hrun]
    refine runFlow_mono tags_tail7 env _ ?_
    simp

/-- PROCEED or SKIP at the R install dialog still leads to the R directory
dialog. -/
theorem tail5_shows_R (env : Env) (s : St) (v : InstallVars)
    (hv : s.vars = some v)
    (h5 : env.outcomes 5 = .next ∨ env.outcomes 5 = .skip) :
    (6, Event.dialogShown "DirPathPostInstallWindow R")
      ∈ (runFlow env tail5 s).2.trace := by
  rcases h5 with h5 | h5
  · have e5 : stage5 env s = .cont (s.push 5 [.dialogShown "GenericInstallWindow R",
        .execInstaller (.str v.rInstall)]) := by
      simp [stage5, h5, hv]
    have hrun : runFlow env tail5 s = runFlow env tail6 _ := runFlow_cons_cont e5
    rw [hrun]
    exact tail6_shows_R env _ v (by simp [hv])
  · have e5 : stage5 env s = .cont (s.push 5 [.dialogShown "GenericInstallWindow R"]) := by
      simp [stage5, h5]
    have hrun : runFlow env tail5 s = runFlow env tail6 _ := runFlow_cons_cont e5
    rw [hrun]
    exact tail6_shows_R env _ v (by simp [hv])

/-- Reaching past the SNAP dialog without cancelling still leads to the R
directory dialog (when PROCEED is chosen at SNAP, `site_packages_dir` must be
assigned, else the run would crash first). -/
theorem tail4_shows_R (env : Env) (s : St) (v : InstallVars)
    (hv : s.vars = some v)
    (h4 : env.outcomes 4 ≠ .cancel)
    (h4n : env.outcomes 4 = .next → ∃ sp, s.sitePkgs = some sp)
    (h5 : env.outcomes 5 = .next ∨ env.outcomes 5 = .skip) :
    (6, Event.dialogShown "DirPathPostInstallWindow R")
      ∈ (runFlow env tail4 s).2.trace := by
  rcases ho : env.outcomes 4 with _ | _ | _ | _
  · obtain ⟨sp, hsp⟩ := h4n ho
    have e4 : stage4 env s = .cont ((s.push 4
        ([.dialogShown "GenericInstallWindow SNAP",
          .execInstaller (.args v.snapInstallCmd)]
         ++ stage4EventsNext env v sp)).setSitePkgs
        (pjoin [v.osgeo, "apps", "Python37", "lib", "site-packages"])) := by
      simp [stage4, ho, hv, hsp]
    have hrun : runFlow env tail4 s = runFlow env tail5 _ := runFlow_cons_cont e4
    rw [hrun]
    exact tail5_shows_R env _ v (by simp [hv]) h5
  · have e4 : stage4 env s = .cont (s.push 4 [.dialogShown "GenericInstallWindow SNAP"]) := by
      simp [stage4, ho]
    have hrun : runFlow env tail4 s = runFlow env tail5 _ := runFlow_cons_cont e4
    rw [hrun]
    exact tail5_shows_R env _ v (by simp [hv]) h5
  · exact absurd ho h4
  · have e4 : stage4 env s = .cont (s.push 4 [.dialogShown "GenericInstallWindow SNAP",
        .popupUnknownAction]) := by
      simp [stage4, ho]
    have hrun : runFlow env tail4 s = runFlow env tail5 _ := runFlow_cons_cont e4
    rw [hrun]
    exact tail5_shows_R env _ v (by simp [hv]) h5

/-- From the OSGeo4W directory dialog on: if that dialog and the SNAP dialog
are not cancelled (and their PROCEED branches do not crash), PROCEED or SKIP
at the R install dialog still leads to the R directory dialog. -/
theorem tail3_shows_R (env : Env) (s : St) (v : InstallVars)
    (hv : s.vars = some v)
    (h3 : env.outcomes 3 ≠ .cancel)
    (h3n : env.outcomes 3 = .next →
      env.isFile (pjoin [env.dirText 3, "bin", "o4w_env.bat"]) = true
      ∧ (activateProcessingProviders env.glob env.isDir (env.dirText 3)).2
          = Except.ok ())
    (h43 : env.outcomes 4 = .next → env.outcomes 3 = .next)
    (h4 : env.outcomes 4 ≠ .cancel)
    (h5 : env.outcomes 5 = .next ∨ env.outcomes 5 = .skip) :
    (6, Event.dialogShown "DirPathPostInstallWindow R")
      ∈ (runFlow env tail3 s).2.trace := by
  rcases ho : env.outcomes 3 with _ | _ | _ | _
  · obtain ⟨hbat, hok⟩ := h3n ho
    have hb : (stage3EventsNext env (env.dirText 3)).2 = Except.ok () := by
      simp [stage3EventsNext, hbat, hok]
    have e3 : stage3 env s = .cont (((s.push 3
        (Event.dialogShown "DirPathPostInstallWindow OSGeo4W"
          :: (stage3EventsNext env (env.dirText 3)).1)).setVars
        { v with osgeo := env.dirText 3 }).setSitePkgs
        (pjoin [env.dirText 3, "apps", "Python37", "Lib", "site-packages"])) := by
      simp [stage3, hv, ho, hb]
    have hrun : runFlow env tail3 s = runFlow env tail4 _ := runFlow_cons_cont e3
    rw [hrun]
    refine tail4_shows_R env _ { v with osgeo := env.dirText 3 } (by simp) h4 ?_ h5
    intro _
    exact ⟨pjoin [env.dirText 3, "apps", "Python37", "Lib", "site-packages"], by simp⟩
  · have e3 : stage3 env s
        = .cont (s.push 3 [.dialogShown "DirPathPostInstallWindow OSGeo4W"]) := by
      simp [stage3, hv, ho]
    have hrun : runFlow env tail3 s = runFlow env tail4 _ := runFlow_cons_cont e3
    rw [hrun]
    refine tail4_shows_R env _ v (by simp [hv]) h4 ?_ h5
    intro h4next
    exact absurd (h43 h4next) (by rw [ho]; simp)
  · exact absurd ho h3
  · have e3 : stage3 env s
        = .cont (s.push 3 [.dialogShown "DirPathPostInstallWindow OSGeo4W",
            .popupUnknownAction]) := by
      simp [stage3, hv, ho]
    have hrun : runFlow env tail3 s = runFlow env tail4 _ := runFlow_cons_cont e3
    rw [hrun]
    refine tail4_shows_R env _ v (by simp [hv]) h4 ?_ h5
    intro h4next
    exact absurd (h43 h4next) (by rw [ho]; simp)

/-- The OSGeo4W directory dialog is always shown when the welcome variables
are assigned, whatever its outcome. -/
theorem tail3_shows_OSGeo (env : Env) (s : St) (v : InstallVars)
    (hv : s.vars = some v) :
    (3, Event.dialogShown "DirPathPostInstallWindow OSGeo4W")
      ∈ (runFlow env tail3 s).2.trace := by
  rcases ho : env.outcomes 3 with _ | _ | _ | _
  · cases hb : (stage3EventsNext env (env.dirText 3)).2 with
    | error e =>
      have e3 : stage3 env s = .done (.crashed e) (((s.push 3
          (Event.dialogShown "DirPathPostInstallWindow OSGeo4W"
            :: (stage3EventsNext env (env.dirText 3)).1)).setVars
          { v with osgeo := env.dirText 3 }).setSitePkgs
          (pjoin [env.dirText 3, "apps", "Python37", "Lib", "site-packages"])) := by
        simp [stage3, hv, ho, hb]
      have hrun : runFlow env tail3 s = _ := runFlow_cons_done e3
      rw [hrun]
      simp
    | ok u =>
      have e3 : stage3 env s = .cont (((s.push 3
          (Event.dialogShown "DirPathPostInstallWindow OSGeo4W"
            :: (stage3EventsNext env (env.dirText 3)).1)).setVars
          { v with osgeo := env.dirText 3 }).setSitePkgs
          (pjoin [env.dirText 3, "apps", "Python37", "Lib", "site-packages"])) := by
        simp [stage3, hv, ho, hb]
      have hrun : runFlow env tail3 s = runFlow env tail4 _ := runFlow_cons_cont e3
      rw [hrun]
      refine runFlow_mono tags_tail4 env _ ?_
      simp
  · have e3 : stage3 env s
        = .cont (s.push 3 [.dialogShown "DirPathPostInstallWindow OSGeo4W"]) := by
      simp [stage3, hv, ho]
    have hrun : runFlow env tail3 s = runFlow env tail4 _ := runFlow_cons_cont e3
    rw [hrun]
    refine runFlow_mono tags_tail4 env _ ?_
    simp
  · have e3 : stage3 env s
        = .done .cancelled (s.push 3 [.dialogShown "DirPathPostInstallWindow OSGeo4W"]) := by
      simp [stage3, hv, ho]
    have hrun : runFlow env tail3 s = _ := runFlow_cons_done e3
    rw [hrun]
    simp
  · have e3 : stage3 env s
        = .cont (s.push 3 [.dialogShown "DirPathPostInstallWindow OSGeo4W",
            .popupUnknownAction]) := by
      simp [stage3, hv, ho]
    have hrun : runFlow env tail3 s = runFlow env tail4 _ := runFlow_cons_cont e3
    rw [hrun]
    refine runFlow_mono tags_tail4 env _ ?_
    simp

/-- A run that proceeds past the welcome window and is not cancelled at the
uninstall or OSGeo4W install dialogs reaches the OSGeo4W directory dialog
with the welcome variables assigned and `site_packages_dir` unassigned. -/
theorem reach_tail3 (env : Env) (h0 : env.outcomes 0 = .next)
    (h1 : env.outcomes 1 ≠ .cancel) (h2 : env.outcomes 2 ≠ .cancel) :
    ∃ s, runInstaller env = runFlow env tail3 s
      ∧ s.vars = some initialVars ∧ s.sitePkgs = none := by
  have e0 : stage0 env initSt
      = .cont ((initSt.push 0 [.dialogShown "installerWelcomeWindow"]).setVars
        initialVars) := by
    simp [stage0, h0]
  set s1 : St := (initSt.push 0 [.dialogShown "installerWelcomeWindow"]).setVars
    initialVars with hs1
  have e1 : stage1 env s1
      = .cont (s1.push 1 [.dialogShown "uninstallInstructionsWindow"]) := by
    rcases ho1 : env.outcomes 1 with _ | _ | _ | _
    · simp [stage1, ho1]
    · simp [stage1, ho1]
    · exact absurd ho1 h1
    · simp [stage1, ho1]
  set s2 : St := s1.push 1 [.dialogShown "uninstallInstructionsWindow"] with hs2
  have hv2 : s2.vars = some initialVars := by simp [hs2, hs1]
  have e2 : ∃ L, stage2 env s2 = .cont (s2.push 2 L) := by
    rcases ho2 : env.outcomes 2 with _ | _ | _ | _
    · exact ⟨[.dialogShown "GenericInstallWindow OSGeo4W",
        .execInstaller (.str initialVars.osgeo4wInstall),
        .extractZip initialVars.otbInstall (pjoin [initialVars.osgeo, "apps"])],
        by simp [stage2, ho2, hv2]⟩
    · exact ⟨[.dialogShown "GenericInstallWindow OSGeo4W"], by simp [stage2, ho2]⟩
    · exact absurd ho2 h2
    · exact ⟨[.dialogShown "GenericInstallWindow OSGeo4W", .popupUnknownAction],
        by simp [stage2, ho2]⟩
  obtain ⟨L2, e2⟩ := e2
  refine ⟨s2.push 2 L2, ?_, by simp [hv2], by simp [hs2, hs1, initSt]⟩
  calc runInstaller env = runFlow env tail0 initSt := rfl
    _ = runFlow env tail1 s1 := runFlow_cons_cont e0
    _ = runFlow env tail2 s2 := runFlow_cons_cont e1
    _ = runFlow env tail3 (s2.push 2 L2) := runFlow_cons_cont e2

/-- C3: directory-confirmation dialogs are presented even when the
corresponding binary-installation step was skipped.  (a) On the normal path
(PROCEED at the welcome window, no CANCEL before), PROCEED or SKIP at the
OSGeo4W install dialog both lead to the OSGeo4W directory dialog being shown.
(b) Likewise, a run that reaches the R install dialog (no CANCEL before, and
the PROCEED branches of the OSGeo4W directory and SNAP dialogs not crashing —
in particular PROCEED at SNAP requires PROCEED at the OSGeo4W directory
dialog, see C10) shows the R directory dialog whether the R install outcome
is PROCEED or SKIP. -/
theorem C3_skip_preserves_dir_confirm (env : Env) :
    (env.outcomes 0 = .next → env.outcomes 1 ≠ .cancel →
      (env.outcomes 2 = .next ∨ env.outcomes 2 = .skip) →
      (3, Event.dialogShown "DirPathPostInstallWindow OSGeo4W")
        ∈ (runInstaller env).2.trace)
    ∧ (env.outcomes 0 = .next → env.outcomes 1 ≠ .cancel →
      env.outcomes 2 ≠ .cancel → env.outcomes 3 ≠ .cancel →
      (env.outcomes 3 = .next →
        env.isFile (pjoin [env.dirText 3, "bin", "o4w_env.bat"]) = true
        ∧ (activateProcessingProviders env.glob env.isDir (env.dirText 3)).2
            = Except.ok ()) →
      (env.outcomes 4 = .next → env.outcomes 3 = .next) →
      env.outcomes 4 ≠ .cancel →
      (env.outcomes 5 = .next ∨ env.outcomes 5 = .skip) →
      (6, Event.dialogShown "DirPathPostInstallWindow R")
        ∈ (runInstaller env).2.trace) := by
  constructor
  · intro h0 h1 h2
    have h2' : env.outcomes 2 ≠ .cancel := by
      rcases h2 with h | h <;> rw [h] <;> simp
    obtain ⟨s, hrun, hv, _⟩ := reach_tail3 env h0 h1 h2'
    rw [hrun]
    exact tail3_shows_OSGeo env s initialVars hv
  · intro h0 h1 h2 h3 h3n h43 h4 h5
    obtain ⟨s, hrun, hv, _⟩ := reach_tail3 env h0 h1 h2
    rw [hrun]
    exact tail3_shows_R env s initialVars hv h3 h3n h43 h4 h5

/-- An environment for the C3 witness: PROCEED at the welcome window, SKIP
everywhere else. -/
def envC3 : Env :=
  { outcomes := fun k => if k == 0 then .next else .skip
    dirText := fun _ => ""
    home := "H"
    isFile := fun _ => false
    isDir := fun _ => false
    glob := fun _ => []
    writeOk := fun _ => false
    ramOk := true }

/-- Witness for C3: both directory dialogs are shown in an all-SKIP run. -/
theorem C3_skip_preserves_dir_confirm_witness :
    ((3, Event.dialogShown "DirPathPostInstallWindow OSGeo4W")
      ∈ (runInstaller envC3).2.trace)
    ∧ ((6, Event.dialogShown "DirPathPostInstallWindow R")
      ∈ (runInstaller envC3).2.trace) :=
  ⟨(C3_skip_preserves_dir_confirm envC3).1 (by decide) (by decide) (Or.inr (by decide)),
   (C3_skip_preserves_dir_confirm envC3).2 (by decide) (by decide) (by decide)
     (by decide) (by intro h; exact absurd h (by decide))
     (by intro h; exact absurd h (by decide)) (by decide) (Or.inr (by decide))⟩
